import Mathlib

/-!
Verification of the geodesic core of `geographiclib-closure` (a Google-Closure
port of GeographicLib's JavaScript geodesic library, with the series order
reduced to `GEOGRAPHICLIB_GEODESIC_ORDER = 2`).

The JavaScript sources are shallowly embedded over the real numbers: JS
`number` values become `ℝ`, `Math.sin` and friends become their Mathlib
counterparts, bit masks become `ℕ` with `&&&`/`|||`, fields that the code may
set to `NaN` (only `a12` of a position result) become `Option ℝ` with `none`
standing for not-a-number.  Compensated floating-point tricks (`GeoMath.sum`,
`Geodesic.AngRound`) are embedded literally; over `ℝ` their rounding residuals
vanish, which is proved as lemmas rather than assumed.

Sources embedded:
  * `src/src/net/sf/geographiclib/geomath.js`      — `GeoMath`
  * `src/unnamed/part_000`                         — `Accuracy` (order 2)
  * `src/src/net/sf/geographiclib/interface.js`    — `GeodesicMask`
  * the `Geodesic` class (constructor, `SinCosSeries`, `AngRound`, `Astroid`,
    series coefficient functions, `Lengths`, `InverseStart`, `Lambda12`,
    `GenInverse`)
  * `src/src/net/sf/geographiclib/geodesicline.js` — `GeodesicLine`,
    `GenPosition`
-/

open Real

/-- JS `Math.atan2(y, x)`: the angle of the point `(x, y)` in `(-π, π]`
(real numbers have no signed zero, so the `±0` distinctions of IEEE
`atan2` collapse). -/
noncomputable def atan2 (y x : ℝ) : ℝ :=
  if 0 < x then Real.arctan (y / x)
  else if x < 0 then
    (if 0 ≤ y then Real.arctan (y / x) + Real.pi else Real.arctan (y / x) - Real.pi)
  else
    (if 0 < y then Real.pi / 2 else if y < 0 then -(Real.pi / 2) else 0)

namespace GeoMath

/-- `GeoMath.digits = 53`. -/
def digits : ℕ := 53

/-- `GeoMath.epsilon = 0.5^52`. -/
noncomputable def epsilon : ℝ := (1 / 2 : ℝ) ^ (52 : ℕ)

/-- `GeoMath.degree = π / 180`. -/
noncomputable def degree : ℝ := Real.pi / 180

/-- `GeoMath.sq(x) = x * x`. -/
def sq (x : ℝ) : ℝ := x * x

/-- `GeoMath.hypot(x, y)`: `a * sqrt(1 + b²)` with `a` the larger and `b`
the ratio `min / (a ? a : 1)` of the two magnitudes, as in the source. -/
noncomputable def hypot (x y : ℝ) : ℝ :=
  let x' := |x|
  let y' := |y|
  let a := max x' y'
  let b := min x' y' / (if a = 0 then 1 else a)
  a * Real.sqrt (1 + b * b)

/-- `GeoMath.log1p(x)`: `z = (1+x) - 1`; returns `x` when `z = 0`, else
`x * log(1+x) / z`.  Over `ℝ`, `z = x` exactly. -/
noncomputable def log1p (x : ℝ) : ℝ :=
  let y := 1 + x
  let z := y - 1
  if z = 0 then x else x * Real.log y / z

/-- `GeoMath.atanh(x)` built on `log1p`, with odd symmetry forced. -/
noncomputable def atanh (x : ℝ) : ℝ :=
  let y := |x|
  let y' := log1p (2 * y / (1 - y)) / 2
  if x < 0 then -y' else y'

/-- `GeoMath.cbrt(x)` with odd symmetry forced. -/
noncomputable def cbrt (x : ℝ) : ℝ :=
  let y := |x| ^ ((1 : ℝ) / 3)
  if x < 0 then -y else y

/-- `GeoMath.min = 0.5^1022` (smallest normalized double). -/
noncomputable def minD : ℝ := (1 / 2 : ℝ) ^ (1022 : ℕ)

/-- `GeoMath.sum(u, v)`: error-free two-term sum `(s, t)`.  Over `ℝ` the
residual `t` is exactly `0`; the compensated expression is kept verbatim. -/
def sum (u v : ℝ) : ℝ × ℝ :=
  let s := u + v
  let up := s - v
  let vpp := s - up
  let up' := up - u
  let vpp' := vpp - v
  (s, -(up' + vpp'))

/-- `GeoMath.angNormalize(x)`: one conditional fold of `±360` (the source
comments that the input range is restricted). -/
noncomputable def angNormalize (x : ℝ) : ℝ :=
  if x ≥ 180 then x - 360 else if x < -180 then x + 360 else x

/-- JS truncated division remainder `x % y` (sign of the dividend). -/
noncomputable def jsMod (x y : ℝ) : ℝ :=
  x - y * (if 0 ≤ x / y then ((⌊x / y⌋ : ℤ) : ℝ) else ((⌈x / y⌉ : ℤ) : ℝ))

/-- `GeoMath.angNormalize2(x) = angNormalize(x % 360)`. -/
noncomputable def angNormalize2 (x : ℝ) : ℝ := angNormalize (jsMod x 360)

/-- `GeoMath.angDiff(x, y)`: compensated difference `y - x` folded into
`[-180, 180]`.  The compensation term `t` is `0` over `ℝ` but the code is
embedded verbatim. -/
noncomputable def angDiff (x y : ℝ) : ℝ :=
  let d := y - x
  let yp := d + x
  let xpp := yp - d
  let yp' := yp - y
  let xpp' := xpp - x
  let t := xpp' - yp'
  let d' := if (d - 180) + t > 0 then d - 360 else if (d + 180) + t ≤ 0 then d + 360 else d
  d' + t

end GeoMath

namespace Accuracy

/-- `GEOGRAPHICLIB_GEODESIC_ORDER = 2` (the port reduces the published
order 6 to 2). -/
def order : ℕ := 2

/-- `nA1_ = order`. -/
def nA1 : ℕ := order

/-- `nC1_ = order`. -/
def nC1 : ℕ := order

/-- `nC1p_ = order`. -/
def nC1p : ℕ := order

/-- `nA2_ = order`. -/
def nA2 : ℕ := order

/-- `nC2_ = order`. -/
def nC2 : ℕ := order

/-- `nA3_ = order`. -/
def nA3 : ℕ := order

/-- `nA3x_ = nA3_`. -/
def nA3x : ℕ := nA3

/-- `nC3_ = order`. -/
def nC3 : ℕ := order

/-- `nC3x_ = nC3 (nC3 - 1) / 2`. -/
def nC3x : ℕ := (nC3 * (nC3 - 1)) / 2

/-- `nC4_ = order`. -/
def nC4 : ℕ := order

/-- `nC4x_ = nC4 (nC4 + 1) / 2`. -/
def nC4x : ℕ := (nC4 * (nC4 + 1)) / 2

/-- `maxit1_ = 20`: Newton steps are attempted only while `numit < maxit1`. -/
def maxit1 : ℕ := 20

/-- `maxit2_ = maxit1_ + GeoMath.digits + 10`. -/
def maxit2 : ℕ := maxit1 + GeoMath.digits + 10

/-- `tiny_ = sqrt(GeoMath.min)`. -/
noncomputable def tiny : ℝ := Real.sqrt GeoMath.minD

/-- `tol0_ = GeoMath.epsilon`. -/
noncomputable def tol0 : ℝ := GeoMath.epsilon

/-- `tol1_ = 200 tol0_`. -/
noncomputable def tol1 : ℝ := 200 * tol0

/-- `tol2_ = sqrt(tol0_)`. -/
noncomputable def tol2 : ℝ := Real.sqrt tol0

/-- `tolb_ = tol0_ tol2_`. -/
noncomputable def tolb : ℝ := tol0 * tol2

/-- `xthresh_ = 1000 tol2_`. -/
noncomputable def xthresh : ℝ := 1000 * tol2

end Accuracy

namespace GeodesicMask

/-- `CAP_NONE = 0`. -/
def CAP_NONE : ℕ := 0

/-- `CAP_C1 = 1 << 0`. -/
def CAP_C1 : ℕ := 1 <<< 0

/-- `CAP_C1p = 1 << 1`. -/
def CAP_C1p : ℕ := 1 <<< 1

/-- `CAP_C2 = 1 << 2`. -/
def CAP_C2 : ℕ := 1 <<< 2

/-- `CAP_C3 = 1 << 3`. -/
def CAP_C3 : ℕ := 1 <<< 3

/-- `CAP_C4 = 1 << 4`. -/
def CAP_C4 : ℕ := 1 <<< 4

/-- `CAP_ALL = 0x1F`. -/
def CAP_ALL : ℕ := 0x1F

/-- `OUT_ALL = 0x7F80`. -/
def OUT_ALL : ℕ := 0x7F80

/-- `NONE = 0`. -/
def NONE : ℕ := 0

/-- `LATITUDE = 1 << 7 | CAP_NONE`. -/
def LATITUDE : ℕ := 1 <<< 7 ||| CAP_NONE

/-- `LONGITUDE = 1 << 8 | CAP_C3`. -/
def LONGITUDE : ℕ := 1 <<< 8 ||| CAP_C3

/-- `AZIMUTH = 1 << 9 | CAP_NONE`. -/
def AZIMUTH : ℕ := 1 <<< 9 ||| CAP_NONE

/-- `DISTANCE = 1 << 10 | CAP_C1`. -/
def DISTANCE : ℕ := 1 <<< 10 ||| CAP_C1

/-- `DISTANCE_IN = 1 << 11 | CAP_C1 | CAP_C1p`. -/
def DISTANCE_IN : ℕ := 1 <<< 11 ||| CAP_C1 ||| CAP_C1p

/-- `REDUCEDLENGTH = 1 << 12 | CAP_C1 | CAP_C2`. -/
def REDUCEDLENGTH : ℕ := 1 <<< 12 ||| CAP_C1 ||| CAP_C2

/-- `GEODESICSCALE = 1 << 13 | CAP_C1 | CAP_C2`. -/
def GEODESICSCALE : ℕ := 1 <<< 13 ||| CAP_C1 ||| CAP_C2

/-- `AREA = 1 << 14 | CAP_C4`. -/
def AREA : ℕ := 1 <<< 14 ||| CAP_C4

/-- `ALL = OUT_ALL | CAP_ALL`. -/
def ALL : ℕ := OUT_ALL ||| CAP_ALL

end GeodesicMask

/-- One Clenshaw recurrence step `(y0, y1) ↦ (ar y0 - y1 + a, y0)`; the
source's loop body is two of these unrolled. -/
def clenshawStep (ar a : ℝ) (p : ℝ × ℝ) : ℝ × ℝ := (ar * p.1 - p.2 + a, p.1)

/-- The `while (n--)` loop of `Geodesic.SinCosSeries`: each pass does
`y1 = ar*y0 - y1 + c[--k]; y0 = ar*y1 - y0 + c[--k]`. -/
def sinCosLoop (ar : ℝ) (c : ℕ → ℝ) : ℕ → ℕ → ℝ × ℝ → ℝ × ℝ
  | 0, _, p => p
  | m + 1, k, p =>
      let y1 := ar * p.1 - p.2 + c (k - 1)
      let y0 := ar * y1 - p.1 + c (k - 2)
      sinCosLoop ar c m (k - 2) (y0, y1)

/-- One-coefficient-at-a-time view of the Clenshaw loop: `cnt` steps,
consuming `c (k-1), c (k-2), …`. -/
def clenshawIter (ar : ℝ) (c : ℕ → ℝ) : ℕ → ℕ → ℝ × ℝ → ℝ × ℝ
  | 0, _, p => p
  | cnt + 1, k, p => clenshawIter ar c cnt (k - 1) (clenshawStep ar (c (k - 1)) p)

/-- Backward-recurrence view: the state after consuming the `cnt` top
coefficients `c t, c (t-1), …, c (t-cnt+1)` starting from `(0, 0)`. -/
def clenshawDown (ar : ℝ) (c : ℕ → ℝ) (t : ℕ) : ℕ → ℝ × ℝ
  | 0 => (0, 0)
  | cnt + 1 => clenshawStep ar (c (t - cnt)) (clenshawDown ar c t cnt)

namespace Geodesic

/-- `Geodesic.SinCosSeries(sinp, sinx, cosx, c, n)`: Clenshaw evaluation with
`ar = 2 (cosx - sinx)(cosx + sinx)`; coefficient arrays are embedded as
functions `ℕ → ℝ` (indices the source never writes read as `0`). -/
def SinCosSeries (sinp : Bool) (sinx cosx : ℝ) (c : ℕ → ℝ) (n : ℕ) : ℝ :=
  let k := n + (if sinp then 1 else 0)
  let ar := 2 * (cosx - sinx) * (cosx + sinx)
  let y0 := if n % 2 = 1 then c (k - 1) else 0
  let k' := if n % 2 = 1 then k - 1 else k
  let p := sinCosLoop ar c (n / 2) k' (y0, 0)
  if sinp then 2 * sinx * cosx * p.1 else cosx * (p.1 - p.2)

/-- `Geodesic.AngRound(x)`: bumps magnitudes below `1/16` through the
expression `z - (z - y)` (a no-op over `ℝ`; in doubles it rounds away tiny
values). -/
noncomputable def AngRound (x : ℝ) : ℝ :=
  let z : ℝ := 1 / 16
  let y0 := |x|
  let y := if y0 < z then z - (z - y0) else y0
  if x < 0 then -y else y

/-- `Geodesic.Astroid(x, y)`: positive root of
`k⁴ + 2k³ - (x² + y² - 1)k² - 2y²k - y² = 0` via the depressed cubic. -/
noncomputable def Astroid (x y : ℝ) : ℝ :=
  let p := GeoMath.sq x
  let q := GeoMath.sq y
  let r := (p + q - 1) / 6
  if ¬(q = 0 ∧ r ≤ 0) then
    let S := p * q / 4
    let r2 := GeoMath.sq r
    let r3 := r * r2
    let disc := S * (S + 2 * r3)
    let u :=
      if disc ≥ 0 then
        let T3a := S + r3
        let T3 := T3a + (if T3a < 0 then -Real.sqrt disc else Real.sqrt disc)
        let T := GeoMath.cbrt T3
        r + T + (if T ≠ 0 then r2 / T else 0)
      else
        let ang := atan2 (Real.sqrt (-disc)) (-(S + r3))
        r + 2 * r * Real.cos (ang / 3)
    let v := Real.sqrt (GeoMath.sq u + q)
    let uv := if u < 0 then q / (v - u) else u + v
    let w := (uv - q) / (2 * v)
    uv / (Real.sqrt (uv + GeoMath.sq w) + w)
  else 0

/-- `Geodesic.A1m1f(eps)`. -/
noncomputable def A1m1f (eps : ℝ) : ℝ :=
  let eps2 := GeoMath.sq eps
  let t := eps2 * (eps2 * (eps2 + 4) + 64) / 256
  (t + eps) / (1 - eps)

/-- `Geodesic.C1f(eps, c)`: fills `c[1..6]` (the source writes a JS array;
embedded as the function of the index). -/
noncomputable def C1f (eps : ℝ) : ℕ → ℝ := fun i =>
  let eps2 := GeoMath.sq eps
  match i with
  | 1 => eps * ((6 - eps2) * eps2 - 16) / 32
  | 2 => eps ^ 2 * ((64 - 9 * eps2) * eps2 - 128) / 2048
  | 3 => eps ^ 3 * (9 * eps2 - 16) / 768
  | 4 => eps ^ 4 * (3 * eps2 - 5) / 512
  | 5 => -7 * eps ^ 5 / 1280
  | 6 => -7 * eps ^ 6 / 2048
  | _ => 0

/-- `Geodesic.C1pf(eps, c)`. -/
noncomputable def C1pf (eps : ℝ) : ℕ → ℝ := fun i =>
  let eps2 := GeoMath.sq eps
  match i with
  | 1 => eps * (eps2 * (205 * eps2 - 432) + 768) / 1536
  | 2 => eps ^ 2 * (eps2 * (4005 * eps2 - 4736) + 3840) / 12288
  | 3 => eps ^ 3 * (116 - 225 * eps2) / 384
  | 4 => eps ^ 4 * (2695 - 7173 * eps2) / 7680
  | 5 => 3467 * eps ^ 5 / 7680
  | 6 => 38081 * eps ^ 6 / 61440
  | _ => 0

/-- `Geodesic.A2m1f(eps)`. -/
noncomputable def A2m1f (eps : ℝ) : ℝ :=
  let eps2 := GeoMath.sq eps
  let t := eps2 * (eps2 * (25 * eps2 + 36) + 64) / 256
  t * (1 - eps) - eps

/-- `Geodesic.C2f(eps, c)`. -/
noncomputable def C2f (eps : ℝ) : ℕ → ℝ := fun i =>
  let eps2 := GeoMath.sq eps
  match i with
  | 1 => eps * (eps2 * (eps2 + 2) + 16) / 32
  | 2 => eps ^ 2 * (eps2 * (35 * eps2 + 64) + 384) / 2048
  | 3 => eps ^ 3 * (15 * eps2 + 80) / 768
  | 4 => eps ^ 4 * (7 * eps2 + 35) / 512
  | 5 => 63 * eps ^ 5 / 1280
  | 6 => 77 * eps ^ 6 / 2048
  | _ => 0

/-- `Geodesic.prototype.A3coeff`: the `_A3x` table, a function of the third
flattening `n` only. -/
noncomputable def A3xTbl (n : ℝ) : ℕ → ℝ := fun i =>
  match i with
  | 0 => 1
  | 1 => (n - 1) / 2
  | 2 => (n * (3 * n - 1) - 2) / 8
  | 3 => ((-n - 3) * n - 1) / 16
  | 4 => (-2 * n - 3) / 64
  | 5 => -3 / 128
  | _ => 0

/-- `Geodesic.prototype.C3coeff`: the `_C3x` table. -/
noncomputable def C3xTbl (n : ℝ) : ℕ → ℝ := fun i =>
  match i with
  | 0 => (1 - n) / 4
  | 1 => (1 - n * n) / 8
  | 2 => ((3 - n) * n + 3) / 64
  | 3 => (2 * n + 5) / 128
  | 4 => 3 / 128
  | 5 => ((n - 3) * n + 2) / 32
  | 6 => ((-3 * n - 2) * n + 3) / 64
  | 7 => (n + 3) / 128
  | 8 => 5 / 256
  | 9 => (n * (5 * n - 9) + 5) / 192
  | 10 => (9 - 10 * n) / 384
  | 11 => 7 / 512
  | 12 => (7 - 14 * n) / 512
  | 13 => 7 / 512
  | 14 => 21 / 2560
  | _ => 0

/-- `Geodesic.prototype.C4coeff`: the `_C4x` table. -/
noncomputable def C4xTbl (n : ℝ) : ℕ → ℝ := fun i =>
  match i with
  | 0 => (n * (n * (n * (n * (100 * n + 208) + 572) + 3432) - 12012) + 30030) / 45045
  | 1 => (n * (n * (n * (64 * n + 624) - 4576) + 6864) - 3003) / 15015
  | 2 => (n * ((14144 - 10656 * n) * n - 4576) - 858) / 45045
  | 3 => ((-224 * n - 4784) * n + 1573) / 45045
  | 4 => (1088 * n + 156) / 45045
  | 5 => 97 / 15015
  | 6 => (n * (n * ((-64 * n - 624) * n + 4576) - 6864) + 3003) / 135135
  | 7 => (n * (n * (5952 * n - 11648) + 9152) - 2574) / 135135
  | 8 => (n * (5792 * n + 1040) - 1287) / 135135
  | 9 => (468 - 2944 * n) / 135135
  | 10 => 1 / 9009
  | 11 => (n * ((4160 - 1440 * n) * n - 4576) + 1716) / 225225
  | 12 => ((4992 - 8448 * n) * n - 1144) / 225225
  | 13 => (1856 * n - 936) / 225225
  | 14 => 8 / 10725
  | 15 => (n * (3584 * n - 3328) + 1144) / 315315
  | 16 => (1024 * n - 208) / 105105
  | 17 => -136 / 63063
  | 18 => (832 - 2560 * n) / 405405
  | 19 => -128 / 135135
  | 20 => 128 / 99099
  | _ => 0

end Geodesic

/-- The Horner loop `for (i = count; i;) v = eps*v + tbl[--i]` used by
`A3f` (and, with an offset index, by `C3f`/`C4f`). -/
def hornerLoop (eps : ℝ) (tbl : ℕ → ℝ) : ℕ → ℝ → ℝ
  | 0, v => v
  | i + 1, v => hornerLoop eps tbl i (eps * v + tbl i)

/-- The inner loop of `C3f`/`C4f`: state `(t, j)`, each pass does
`t = eps*t + tbl[--j]`. -/
def hornerInner (eps : ℝ) (tbl : ℕ → ℝ) : ℕ → ℝ × ℕ → ℝ × ℕ
  | 0, s => s
  | i + 1, (t, j) => hornerInner eps tbl i (eps * t + tbl (j - 1), j - 1)

/-- The trailing loop of `C3f`/`C4f`:
`mult = 1; for (k = 1; k < top;) { mult *= eps; c[k++] *= mult; }`. -/
def multLoop (eps : ℝ) : ℕ → ℕ → ℝ → (ℕ → ℝ) → (ℕ → ℝ)
  | 0, _, _, c => c
  | cnt + 1, k, mult, c =>
      let mult' := mult * eps
      multLoop eps cnt (k + 1) mult' (Function.update c k (c k * mult'))

/-- The outer loop of `C3f`: `k` runs from `nc3 - 1` down to `1`, writing
`c[k]` from a Horner pass of `nc3 - k` table entries. -/
def c3fOuter (eps : ℝ) (tbl : ℕ → ℝ) (nc3 : ℕ) : ℕ → (ℕ → ℝ) × ℕ → (ℕ → ℝ) × ℕ
  | 0, s => s
  | k + 1, (c, j) =>
      let s := hornerInner eps tbl (nc3 - (k + 1)) (0, j)
      c3fOuter eps tbl nc3 k (Function.update c (k + 1) s.1, s.2)

/-- The outer loop of `C4f`: `k` runs from `nc4` down to `1`, writing
`c[k-1]` from a Horner pass of `nc4 - k + 1` table entries. -/
def c4fOuter (eps : ℝ) (tbl : ℕ → ℝ) (nc4 : ℕ) : ℕ → (ℕ → ℝ) × ℕ → (ℕ → ℝ) × ℕ
  | 0, s => s
  | k + 1, (c, j) =>
      let s := hornerInner eps tbl (nc4 - (k + 1) + 1) (0, j)
      c4fOuter eps tbl nc4 k (Function.update c k s.1, s.2)

/-- `EllipsoidModel` (`Geodesic`): ellipsoid constants and the three
`n`-indexed coefficient tables, all fixed at construction. -/
structure Geodesic where
  a : ℝ
  f : ℝ
  f1 : ℝ
  e2 : ℝ
  ep2 : ℝ
  n : ℝ
  b : ℝ
  c2 : ℝ
  etol2 : ℝ
  A3x : ℕ → ℝ
  C3x : ℕ → ℝ
  C4x : ℕ → ℝ

/-- The `Geodesic` constructor: `f > 1` is read as an inverse flattening;
derived constants and the `A3x`/`C3x`/`C4x` tables follow the source.  The
`goog.asserts` preconditions (`a`, `b` finite positive) become hypotheses of
the theorems that need them. -/
noncomputable def Geodesic.mk' (a f0 : ℝ) : Geodesic :=
  let f := if f0 ≤ 1 then f0 else 1 / f0
  let f1 := 1 - f
  let e2 := f * (2 - f)
  let ep2 := e2 / GeoMath.sq f1
  let n := f / (2 - f)
  let b := a * f1
  let c2 := (GeoMath.sq a + GeoMath.sq b *
      (if e2 = 0 then 1 else
        (if e2 > 0 then GeoMath.atanh (Real.sqrt e2) else Real.arctan (Real.sqrt (-e2))) /
          Real.sqrt |e2|)) / 2
  let etol2 := 0.1 * Accuracy.tol2 /
      Real.sqrt (max 0.001 |f| * min 1 (1 - f / 2) / 2)
  { a := a, f := f, f1 := f1, e2 := e2, ep2 := ep2, n := n, b := b, c2 := c2,
    etol2 := etol2,
    A3x := Geodesic.A3xTbl n, C3x := Geodesic.C3xTbl n, C4x := Geodesic.C4xTbl n }

/-- `Geodesic.prototype.A3f(eps)`: Horner evaluation of `_A3x`. -/
noncomputable def Geodesic.A3f (g : Geodesic) (eps : ℝ) : ℝ :=
  hornerLoop eps g.A3x Accuracy.nA3x 0

/-- `Geodesic.prototype.C3f(eps, c)`. -/
noncomputable def Geodesic.C3f (g : Geodesic) (eps : ℝ) : ℕ → ℝ :=
  let s := c3fOuter eps g.C3x Accuracy.nC3 (Accuracy.nC3 - 1) (fun _ => 0, Accuracy.nC3x)
  multLoop eps (Accuracy.nC3 - 1) 1 1 s.1

/-- `Geodesic.prototype.C4f(eps, c)`. -/
noncomputable def Geodesic.C4f (g : Geodesic) (eps : ℝ) : ℕ → ℝ :=
  let s := c4fOuter eps g.C4x Accuracy.nC4 Accuracy.nC4 (fun _ => 0, Accuracy.nC4x)
  multLoop eps (Accuracy.nC4 - 1) 1 1 s.1

/-- Result record of `Geodesic.prototype.Lengths`. -/
structure LengthsVals where
  m0 : ℝ
  m12b : ℝ
  s12b : ℝ
  M12 : ℝ
  M21 : ℝ

/-- `Geodesic.prototype.Lengths`: distance, reduced length and (when
`scalep`) geodesic scales from the C1/C2 series.  The scratch arrays `C1a`,
`C2a` of the source are filled here from `eps` and so are internal. -/
noncomputable def Geodesic.Lengths (g : Geodesic)
    (eps sig12 ssig1 csig1 dn1 ssig2 csig2 dn2 cbet1 cbet2 : ℝ)
    (scalep : Bool) : LengthsVals :=
  let C1a := Geodesic.C1f eps
  let C2a := Geodesic.C2f eps
  let A1m1 := Geodesic.A1m1f eps
  let AB1 := (1 + A1m1) * (Geodesic.SinCosSeries true ssig2 csig2 C1a Accuracy.nC1 -
      Geodesic.SinCosSeries true ssig1 csig1 C1a Accuracy.nC1)
  let A2m1 := Geodesic.A2m1f eps
  let AB2 := (1 + A2m1) * (Geodesic.SinCosSeries true ssig2 csig2 C2a Accuracy.nC2 -
      Geodesic.SinCosSeries true ssig1 csig1 C2a Accuracy.nC2)
  let m0 := A1m1 - A2m1
  let J12 := m0 * sig12 + (AB1 - AB2)
  let m12b := dn2 * (csig1 * ssig2) - dn1 * (ssig1 * csig2) - csig1 * csig2 * J12
  let s12b := (1 + A1m1) * sig12 + AB1
  if scalep then
    let csig12 := csig1 * csig2 + ssig1 * ssig2
    let t := g.ep2 * (cbet1 - cbet2) * (cbet1 + cbet2) / (dn1 + dn2)
    { m0 := m0, m12b := m12b, s12b := s12b,
      M12 := csig12 + (t * ssig2 - csig2 * J12) * ssig1 / dn1,
      M21 := csig12 - (t * ssig1 - csig1 * J12) * ssig2 / dn2 }
  else
    { m0 := m0, m12b := m12b, s12b := s12b, M12 := 0, M21 := 0 }

/-- Result record of `Geodesic.prototype.InverseStart`.  `sig12 = -1` means
no short-line solution; `sig12 ≥ 0` means `salp2`/`calp2`/`sig12` are final. -/
structure InverseStartVals where
  dnm : ℝ
  salp1 : ℝ
  calp1 : ℝ
  salp2 : ℝ
  calp2 : ℝ
  sig12 : ℝ

/-- `Geodesic.prototype.InverseStart`: starting azimuth guess, via the
short-line linearization or the astroid (near-antipodal) correction. -/
noncomputable def Geodesic.InverseStart (g : Geodesic)
    (sbet1 cbet1 dn1 sbet2 cbet2 dn2 lam12 : ℝ) : InverseStartVals :=
  let sbet12 := sbet2 * cbet1 - cbet2 * sbet1
  let cbet12 := cbet2 * cbet1 + sbet2 * sbet1
  let sbet12a := sbet2 * cbet1 + cbet2 * sbet1
  let shortline := cbet12 ≥ 0 ∧ sbet12 < 0.5 ∧ cbet2 * lam12 < 0.5
  let dnm :=
    if shortline then
      let sbetm2a := GeoMath.sq (sbet1 + sbet2)
      let sbetm2 := sbetm2a / (sbetm2a + GeoMath.sq (cbet1 + cbet2))
      Real.sqrt (1 + g.ep2 * sbetm2)
    else 0
  let omg12 := if shortline then lam12 / (g.f1 * dnm) else lam12
  let somg12 := Real.sin omg12
  let comg12 := Real.cos omg12
  let salp1i := cbet2 * somg12
  let calp1i :=
    if comg12 ≥ 0 then sbet12 + cbet2 * sbet1 * GeoMath.sq somg12 / (1 + comg12)
    else sbet12a - cbet2 * sbet1 * GeoMath.sq somg12 / (1 - comg12)
  let ssig12 := GeoMath.hypot salp1i calp1i
  let csig12 := sbet1 * sbet2 + cbet1 * cbet2 * comg12
  let mid : ℝ × ℝ × ℝ × ℝ × ℝ :=
    if shortline ∧ ssig12 < g.etol2 then
      let salp2 := cbet1 * somg12
      let calp2 := sbet12 - cbet1 * sbet2 *
          (if comg12 ≥ 0 then GeoMath.sq somg12 / (1 + comg12) else 1 - comg12)
      let t := GeoMath.hypot salp2 calp2
      (salp1i, calp1i, salp2 / t, calp2 / t, atan2 ssig12 csig12)
    else if |g.n| > 0.1 ∨ csig12 ≥ 0 ∨
        ssig12 ≥ 6 * |g.n| * Real.pi * GeoMath.sq cbet1 then
      (salp1i, calp1i, 0, 0, -1)
    else
      let q : ℝ × ℝ × ℝ × ℝ :=
        if g.f ≥ 0 then
          let k2 := GeoMath.sq sbet1 * g.ep2
          let eps := k2 / (2 * (1 + Real.sqrt (1 + k2)) + k2)
          let lamscale := g.f * cbet1 * g.A3f eps * Real.pi
          let betscale := lamscale * cbet1
          ((lam12 - Real.pi) / lamscale, sbet12a / betscale, lamscale, betscale)
        else
          let cbet12a := cbet2 * cbet1 - sbet2 * sbet1
          let bet12a := atan2 sbet12a cbet12a
          let nvals := g.Lengths g.n (Real.pi + bet12a) sbet1 (-cbet1) dn1
              sbet2 cbet2 dn2 cbet1 cbet2 false
          let x := -1 + nvals.m12b / (cbet1 * cbet2 * nvals.m0 * Real.pi)
          let betscale := if x < -0.01 then sbet12a / x
              else -g.f * GeoMath.sq cbet1 * Real.pi
          let lamscale := betscale / cbet1
          (x, (lam12 - Real.pi) / lamscale, lamscale, betscale)
      let x := q.1
      let y := q.2.1
      let lamscale := q.2.2.1
      if y > -Accuracy.tol1 ∧ x > -1 - Accuracy.xthresh then
        if g.f ≥ 0 then
          let salp1 := min 1 (-x)
          (salp1, -Real.sqrt (1 - GeoMath.sq salp1), 0, 0, -1)
        else
          let calp1 := max (if x > -Accuracy.tol1 then 0 else -1) x
          (Real.sqrt (1 - GeoMath.sq calp1), calp1, 0, 0, -1)
      else
        let k := Geodesic.Astroid x y
        let omg12a := lamscale * (if g.f ≥ 0 then -x * k / (1 + k) else -y * (1 + k) / k)
        let somg12a := Real.sin omg12a
        let comg12a := -Real.cos omg12a
        (cbet2 * somg12a,
         sbet12a - cbet2 * sbet1 * GeoMath.sq somg12a / (1 - comg12a), 0, 0, -1)
  let salp1m := mid.1
  let calp1m := mid.2.1
  if salp1m > 0 then
    let t := GeoMath.hypot salp1m calp1m
    { dnm := dnm, salp1 := salp1m / t, calp1 := calp1m / t,
      salp2 := mid.2.2.1, calp2 := mid.2.2.2.1, sig12 := mid.2.2.2.2 }
  else
    { dnm := dnm, salp1 := 1, calp1 := 0,
      salp2 := mid.2.2.1, calp2 := mid.2.2.2.1, sig12 := mid.2.2.2.2 }

/-- Result record of `Geodesic.prototype.Lambda12`. -/
structure Lambda12Vals where
  ssig1 : ℝ
  csig1 : ℝ
  salp2 : ℝ
  calp2 : ℝ
  ssig2 : ℝ
  csig2 : ℝ
  sig12 : ℝ
  eps : ℝ
  domg12 : ℝ
  lam12 : ℝ
  dlam12 : ℝ

/-- `Geodesic.prototype.Lambda12`: longitude difference produced by a trial
azimuth, with sigma coordinates, `eps`, and (when `diffp`) the derivative
`dλ12/dα1` via `Lengths`. -/
noncomputable def Geodesic.Lambda12 (g : Geodesic)
    (sbet1 cbet1 dn1 sbet2 cbet2 dn2 salp1 calp10 : ℝ) (diffp : Bool) : Lambda12Vals :=
  let calp1 := if sbet1 = 0 ∧ calp10 = 0 then -Accuracy.tiny else calp10
  let salp0 := salp1 * cbet1
  let calp0 := GeoMath.hypot calp1 (salp1 * sbet1)
  let ssig1a := sbet1
  let somg1 := salp0 * sbet1
  let csig1a := calp1 * cbet1
  let comg1 := csig1a
  let t := GeoMath.hypot ssig1a csig1a
  let ssig1 := ssig1a / t
  let csig1 := csig1a / t
  let salp2 := if cbet2 ≠ cbet1 then salp0 / cbet2 else salp1
  let calp2 :=
    if cbet2 ≠ cbet1 ∨ |sbet2| ≠ -sbet1 then
      Real.sqrt (GeoMath.sq (calp1 * cbet1) +
        (if cbet1 < -sbet1 then (cbet2 - cbet1) * (cbet1 + cbet2)
         else (sbet1 - sbet2) * (sbet1 + sbet2))) / cbet2
    else |calp1|
  let ssig2a := sbet2
  let somg2 := salp0 * sbet2
  let csig2a := calp2 * cbet2
  let comg2 := csig2a
  let t2 := GeoMath.hypot ssig2a csig2a
  let ssig2 := ssig2a / t2
  let csig2 := csig2a / t2
  let sig12 := atan2 (max (csig1 * ssig2 - ssig1 * csig2) 0)
      (csig1 * csig2 + ssig1 * ssig2)
  let omg12 := atan2 (max (comg1 * somg2 - somg1 * comg2) 0)
      (comg1 * comg2 + somg1 * somg2)
  let k2 := GeoMath.sq calp0 * g.ep2
  let eps := k2 / (2 * (1 + Real.sqrt (1 + k2)) + k2)
  let C3a := g.C3f eps
  let B312 := Geodesic.SinCosSeries true ssig2 csig2 C3a (Accuracy.nC3 - 1) -
      Geodesic.SinCosSeries true ssig1 csig1 C3a (Accuracy.nC3 - 1)
  let h0 := -g.f * g.A3f eps
  let domg12 := salp0 * h0 * (sig12 + B312)
  let lam12 := omg12 + domg12
  let dlam12 :=
    if diffp then
      (if calp2 = 0 then -2 * g.f1 * dn1 / sbet1
       else (g.Lengths eps sig12 ssig1 csig1 dn1 ssig2 csig2 dn2 cbet1 cbet2
          false).m12b * g.f1 / (calp2 * cbet2))
    else 0
  { ssig1 := ssig1, csig1 := csig1, salp2 := salp2, calp2 := calp2,
    ssig2 := ssig2, csig2 := csig2, sig12 := sig12, eps := eps,
    domg12 := domg12, lam12 := lam12, dlam12 := dlam12 }

/-- Mutable locals of `GenInverse`'s Newton/bisection `for` loop:
the current azimuth `(salp1, calp1)`, the outputs of the latest `Lambda12`
evaluation, the bracket `(salp1a, calp1a)`/`(salp1b, calp1b)`, the two
convergence flags `tripn`/`tripb`, and the iteration counter `numit`. -/
structure LoopState where
  salp1 : ℝ
  calp1 : ℝ
  salp2 : ℝ
  calp2 : ℝ
  sig12 : ℝ
  ssig1 : ℝ
  csig1 : ℝ
  ssig2 : ℝ
  csig2 : ℝ
  eps : ℝ
  domg12 : ℝ
  salp1a : ℝ
  calp1a : ℝ
  salp1b : ℝ
  calp1b : ℝ
  tripn : Bool
  tripb : Bool
  numit : ℕ

/-- The Newton-step guard of one loop iteration: a Newton step is attempted
only while `numit < maxit1` and the derivative is positive, and is accepted
only if it keeps `sin α1 > 0` and moves less than `π`. -/
noncomputable def invStepNewton (st : LoopState) (v dv : ℝ) : Prop :=
  st.numit < Accuracy.maxit1 ∧ dv > 0 ∧
    (let dalp1 := -v / dv
     let nsalp1 := st.salp1 * Real.cos dalp1 + st.calp1 * Real.sin dalp1
     nsalp1 > 0 ∧ |dalp1| < Real.pi)

noncomputable instance (st : LoopState) (v dv : ℝ) : Decidable (invStepNewton st v dv) := by
  unfold invStepNewton
  infer_instance

/-- One iteration of the `GenInverse` refinement loop: evaluate `Lambda12`,
record its outputs, exit if converged or bracket-tight (`Bool` result
`true`), else update the bracket and do a Newton or bisection step. -/
noncomputable def invStep (g : Geodesic) (sbet1 cbet1 dn1 sbet2 cbet2 dn2 lam12 : ℝ)
    (st0 : LoopState) : LoopState × Bool :=
  let nv := g.Lambda12 sbet1 cbet1 dn1 sbet2 cbet2 dn2 st0.salp1 st0.calp1
      (decide (st0.numit < Accuracy.maxit1))
  let v := nv.lam12 - lam12
  let st :=
    { st0 with
      salp2 := nv.salp2, calp2 := nv.calp2, sig12 := nv.sig12,
      ssig1 := nv.ssig1, csig1 := nv.csig1, ssig2 := nv.ssig2, csig2 := nv.csig2,
      eps := nv.eps, domg12 := nv.domg12 }
  if st.tripb = true ∨ ¬(|v| ≥ (if st.tripn then 8 else 2) * Accuracy.tol0) then
    (st, true)
  else
    let st :=
      if v > 0 ∧ (st.numit < Accuracy.maxit1 ∨ st.calp1 / st.salp1 > st.calp1b / st.salp1b) then
        { st with salp1b := st.salp1, calp1b := st.calp1 }
      else if v < 0 ∧ (st.numit < Accuracy.maxit1 ∨ st.calp1 / st.salp1 < st.calp1a / st.salp1a) then
        { st with salp1a := st.salp1, calp1a := st.calp1 }
      else st
    if invStepNewton st v nv.dlam12 then
      let dalp1 := -v / nv.dlam12
      let sdalp1 := Real.sin dalp1
      let cdalp1 := Real.cos dalp1
      let nsalp1 := st.salp1 * cdalp1 + st.calp1 * sdalp1
      let calp1n := st.calp1 * cdalp1 - st.salp1 * sdalp1
      let salp1n := max 0 nsalp1
      let t := GeoMath.hypot salp1n calp1n
      ({ st with
         salp1 := salp1n / t, calp1 := calp1n / t,
         tripn := decide (|v| ≤ 16 * Accuracy.tol0), numit := st.numit + 1 }, false)
    else
      let salp1n := (st.salp1a + st.salp1b) / 2
      let calp1n := (st.calp1a + st.calp1b) / 2
      let t := GeoMath.hypot salp1n calp1n
      let salp1n' := salp1n / t
      let calp1n' := calp1n / t
      let tripb' := |st.salp1a - salp1n'| + (st.calp1a - calp1n') < Accuracy.tolb ∨
          |salp1n' - st.salp1b| + (calp1n' - st.calp1b) < Accuracy.tolb
      ({ st with
         salp1 := salp1n', calp1 := calp1n', tripn := false,
         tripb := decide tripb', numit := st.numit + 1 }, false)

/-- The bounded `for (numit = 0; numit < maxit2; ++numit)` loop: `fuel` is
the remaining iteration budget (`maxit2 - numit`); the loop always
terminates, returning its current best state when the budget is spent. -/
noncomputable def invLoop (g : Geodesic) (sbet1 cbet1 dn1 sbet2 cbet2 dn2 lam12 : ℝ) :
    ℕ → LoopState → LoopState
  | 0, st => st
  | fuel + 1, st =>
      let r := invStep g sbet1 cbet1 dn1 sbet2 cbet2 dn2 lam12 st
      if r.2 then r.1 else invLoop g sbet1 cbet1 dn1 sbet2 cbet2 dn2 lam12 fuel r.1

/-- Values produced by the branch dispatch (meridian / equatorial /
short-line / iterative) of `GenInverse`, before the area block and before
the canonicalization is undone. -/
structure InvMid where
  s12x : ℝ
  m12x : ℝ
  M12 : ℝ
  M21 : ℝ
  a12 : ℝ
  salp1 : ℝ
  calp1 : ℝ
  salp2 : ℝ
  calp2 : ℝ
  sig12 : ℝ
  omg12 : ℝ
  meridian : Bool

/-- Everything `GenInverse` computes in the canonical frame: the `InvMid`
fields plus the (unsigned) area term `S12raw`. -/
structure InvCore where
  s12x : ℝ
  m12x : ℝ
  M12 : ℝ
  M21 : ℝ
  a12 : ℝ
  salp1 : ℝ
  calp1 : ℝ
  salp2 : ℝ
  calp2 : ℝ
  S12raw : ℝ

/-- The canonicalized inverse problem: latitudes sorted (`|lat1| ≥ |lat2|`),
first latitude made non-positive, longitude difference made non-negative,
with the sign bookkeeping (`lonsign` already includes the flip applied when
the points are swapped). -/
structure InvCanon where
  lat1 : ℝ
  lat2 : ℝ
  lon12 : ℝ
  lonsign : ℝ
  latsign : ℝ
  swapp : ℝ

/-- Steps 1–2 of `GenInverse`: reduce the longitude difference, round, and
canonicalize the orientation with `lonsign`/`latsign`/`swapp`. -/
noncomputable def canonInverse (lat1 lon1 lat2 lon2 : ℝ) : InvCanon :=
  let lon12a := Geodesic.AngRound
      (GeoMath.angDiff (GeoMath.angNormalize lon1) (GeoMath.angNormalize lon2))
  let lonsign : ℝ := if lon12a ≥ 0 then 1 else -1
  let lon12 := lonsign * lon12a
  let lat1r := Geodesic.AngRound lat1
  let lat2r := Geodesic.AngRound lat2
  let swapp : ℝ := if |lat1r| ≥ |lat2r| then 1 else -1
  let lonsign' := if swapp < 0 then -lonsign else lonsign
  let lat1s := if swapp < 0 then lat2r else lat1r
  let lat2s := if swapp < 0 then lat1r else lat2r
  let latsign : ℝ := if lat1s < 0 then 1 else -1
  { lat1 := latsign * lat1s, lat2 := latsign * lat2s, lon12 := lon12,
    lonsign := lonsign', latsign := latsign, swapp := swapp }

/-- Steps 3–5 of `GenInverse`, in the canonical frame: reduced-latitude
components, branch dispatch (meridian with post-hoc validation, equatorial
closed form, `InverseStart` short line, Newton/bisection iteration), and the
area series; returns the canonical-frame results, with `S12raw` still to be
multiplied by `swapp * lonsign * latsign`. -/
noncomputable def genInverseCore (g : Geodesic) (lat1 lat2 lon12 : ℝ) (outmask : ℕ) :
    InvCore :=
  let scalep := outmask &&& GeodesicMask.GEODESICSCALE ≠ 0
  let phi1 := lat1 * GeoMath.degree
  let sbet1a := g.f1 * Real.sin phi1
  let cbet1a := if lat1 = -90 then Accuracy.tiny else Real.cos phi1
  let t1 := GeoMath.hypot sbet1a cbet1a
  let sbet1 := sbet1a / t1
  let cbet1 := cbet1a / t1
  let phi2 := lat2 * GeoMath.degree
  let sbet2a := g.f1 * Real.sin phi2
  let cbet2a := if |lat2| = 90 then Accuracy.tiny else Real.cos phi2
  let t2 := GeoMath.hypot sbet2a cbet2a
  let sbet2b := sbet2a / t2
  let cbet2b := cbet2a / t2
  let sbet2 :=
    if cbet1 < -sbet1 then
      (if cbet2b = cbet1 then (if sbet2b < 0 then sbet1 else -sbet1) else sbet2b)
    else sbet2b
  let cbet2 :=
    if cbet1 < -sbet1 then cbet2b
    else (if |sbet2b| = -sbet1 then cbet1 else cbet2b)
  let dn1 := Real.sqrt (1 + g.ep2 * GeoMath.sq sbet1)
  let dn2 := Real.sqrt (1 + g.ep2 * GeoMath.sq sbet2)
  let lam12 := lon12 * GeoMath.degree
  let slam12 := if lon12 = 180 then 0 else Real.sin lam12
  let clam12 := Real.cos lam12
  let nonmeridian : InvMid :=
    if sbet1 = 0 ∧ (g.f ≤ 0 ∨ lam12 ≤ Real.pi - g.f * Real.pi) then
      { s12x := g.a * lam12, m12x := g.b * Real.sin (lam12 / g.f1),
        M12 := if scalep then Real.cos (lam12 / g.f1) else 0,
        M21 := if scalep then Real.cos (lam12 / g.f1) else 0,
        a12 := lon12 / g.f1,
        salp1 := 1, calp1 := 0, salp2 := 1, calp2 := 0,
        sig12 := lam12 / g.f1, omg12 := lam12 / g.f1, meridian := false }
    else
      let sv := g.InverseStart sbet1 cbet1 dn1 sbet2 cbet2 dn2 lam12
      if sv.sig12 ≥ 0 then
        { s12x := sv.sig12 * g.b * sv.dnm,
          m12x := GeoMath.sq sv.dnm * g.b * Real.sin (sv.sig12 / sv.dnm),
          M12 := if scalep then Real.cos (sv.sig12 / sv.dnm) else 0,
          M21 := if scalep then Real.cos (sv.sig12 / sv.dnm) else 0,
          a12 := sv.sig12 / GeoMath.degree,
          salp1 := sv.salp1, calp1 := sv.calp1, salp2 := sv.salp2, calp2 := sv.calp2,
          sig12 := sv.sig12, omg12 := lam12 / (g.f1 * sv.dnm), meridian := false }
      else
        let st0 : LoopState :=
          { salp1 := sv.salp1, calp1 := sv.calp1, salp2 := 0, calp2 := 0,
            sig12 := sv.sig12, ssig1 := 0, csig1 := 0, ssig2 := 0, csig2 := 0,
            eps := 0, domg12 := 0,
            salp1a := Accuracy.tiny, calp1a := 1,
            salp1b := Accuracy.tiny, calp1b := -1,
            tripn := false, tripb := false, numit := 0 }
        let fin := invLoop g sbet1 cbet1 dn1 sbet2 cbet2 dn2 lam12 Accuracy.maxit2 st0
        let L := g.Lengths fin.eps fin.sig12 fin.ssig1 fin.csig1 dn1
            fin.ssig2 fin.csig2 dn2 cbet1 cbet2 scalep
        { s12x := L.s12b * g.b, m12x := L.m12b * g.b,
          M12 := if scalep then L.M12 else 0, M21 := if scalep then L.M21 else 0,
          a12 := fin.sig12 / GeoMath.degree,
          salp1 := fin.salp1, calp1 := fin.calp1, salp2 := fin.salp2, calp2 := fin.calp2,
          sig12 := fin.sig12, omg12 := lam12 - fin.domg12, meridian := false }
  let mid : InvMid :=
    if lat1 = -90 ∨ slam12 = 0 then
      let calp1 := clam12
      let salp1 := slam12
      let ssig1 := sbet1
      let csig1 := calp1 * cbet1
      let ssig2 := sbet2
      let csig2 := 1 * cbet2
      let sig12 := atan2 (max (csig1 * ssig2 - ssig1 * csig2) 0)
          (csig1 * csig2 + ssig1 * ssig2)
      let L := g.Lengths g.n sig12 ssig1 csig1 dn1 ssig2 csig2 dn2 cbet1 cbet2 scalep
      if sig12 < 1 ∨ L.m12b ≥ 0 then
        { s12x := L.s12b * g.b, m12x := L.m12b * g.b,
          M12 := if scalep then L.M12 else 0, M21 := if scalep then L.M21 else 0,
          a12 := sig12 / GeoMath.degree,
          salp1 := salp1, calp1 := calp1, salp2 := 0, calp2 := 1,
          sig12 := sig12, omg12 := 0, meridian := true }
      else nonmeridian
    else nonmeridian
  let S12raw :=
    if outmask &&& GeodesicMask.AREA ≠ 0 then
      let salp0 := mid.salp1 * cbet1
      let calp0 := GeoMath.hypot mid.calp1 (mid.salp1 * sbet1)
      let S12a :=
        if calp0 ≠ 0 ∧ salp0 ≠ 0 then
          let ssig1a := sbet1
          let csig1a := mid.calp1 * cbet1
          let ssig2a := sbet2
          let csig2a := mid.calp2 * cbet2
          let k2 := GeoMath.sq calp0 * g.ep2
          let eps := k2 / (2 * (1 + Real.sqrt (1 + k2)) + k2)
          let A4 := GeoMath.sq g.a * calp0 * salp0 * g.e2
          let u1 := GeoMath.hypot ssig1a csig1a
          let ssig1 := ssig1a / u1
          let csig1 := csig1a / u1
          let u2 := GeoMath.hypot ssig2a csig2a
          let ssig2 := ssig2a / u2
          let csig2 := csig2a / u2
          let C4a := g.C4f eps
          let B41 := Geodesic.SinCosSeries false ssig1 csig1 C4a Accuracy.nC4
          let B42 := Geodesic.SinCosSeries false ssig2 csig2 C4a Accuracy.nC4
          A4 * (B42 - B41)
        else 0
      let alp12 :=
        if mid.meridian = false ∧ mid.omg12 < 0.75 * Real.pi ∧ sbet2 - sbet1 < 1.75 then
          let somg12 := Real.sin mid.omg12
          let domg12 := 1 + Real.cos mid.omg12
          let dbet1 := 1 + cbet1
          let dbet2 := 1 + cbet2
          2 * atan2 (somg12 * (sbet1 * dbet2 + sbet2 * dbet1))
              (domg12 * (sbet1 * sbet2 + dbet1 * dbet2))
        else
          let salp12 := mid.salp2 * mid.calp1 - mid.calp2 * mid.salp1
          let calp12 := mid.calp2 * mid.calp1 + mid.salp2 * mid.salp1
          let salp12' := if salp12 = 0 ∧ calp12 < 0 then Accuracy.tiny * mid.calp1 else salp12
          let calp12' := if salp12 = 0 ∧ calp12 < 0 then -1 else calp12
          atan2 salp12' calp12'
      S12a + g.c2 * alp12
    else 0
  { s12x := mid.s12x, m12x := mid.m12x, M12 := mid.M12, M21 := mid.M21,
    a12 := mid.a12, salp1 := mid.salp1, calp1 := mid.calp1,
    salp2 := mid.salp2, calp2 := mid.calp2, S12raw := S12raw }

/-- Result record of `GenInverse` (unrequested fields stay `0`). -/
structure InverseVals where
  M12 : ℝ
  M21 : ℝ
  a12 : ℝ
  s12 : ℝ
  m12 : ℝ
  S12 : ℝ
  azi1 : ℝ
  azi2 : ℝ

/-- `Geodesic.prototype.GenInverse`: canonicalize, solve in the canonical
frame (`genInverseCore`), then undo the swap and sign flips and populate the
mask-selected output fields. -/
noncomputable def Geodesic.GenInverse (g : Geodesic) (lat1 lon1 lat2 lon2 : ℝ)
    (outmask0 : ℕ) : InverseVals :=
  let outmask := outmask0 &&& GeodesicMask.OUT_ALL
  let c := canonInverse lat1 lon1 lat2 lon2
  let core := genInverseCore g c.lat1 c.lat2 c.lon12 outmask
  let salp1u := if c.swapp < 0 then core.salp2 else core.salp1
  let calp1u := if c.swapp < 0 then core.calp2 else core.calp1
  let salp2u := if c.swapp < 0 then core.salp1 else core.salp2
  let calp2u := if c.swapp < 0 then core.calp1 else core.calp2
  let M12u := if c.swapp < 0 ∧ outmask &&& GeodesicMask.GEODESICSCALE ≠ 0
      then core.M21 else core.M12
  let M21u := if c.swapp < 0 ∧ outmask &&& GeodesicMask.GEODESICSCALE ≠ 0
      then core.M12 else core.M21
  let salp1o := salp1u * (c.swapp * c.lonsign)
  let calp1o := calp1u * (c.swapp * c.latsign)
  let salp2o := salp2u * (c.swapp * c.lonsign)
  let calp2o := calp2u * (c.swapp * c.latsign)
  { M12 := M12u, M21 := M21u, a12 := core.a12,
    s12 := if outmask &&& GeodesicMask.DISTANCE ≠ 0 then 0 + core.s12x else 0,
    m12 := if outmask &&& GeodesicMask.REDUCEDLENGTH ≠ 0 then 0 + core.m12x else 0,
    S12 := core.S12raw * (c.swapp * c.lonsign * c.latsign),
    azi1 := if outmask &&& GeodesicMask.AZIMUTH ≠ 0 then
        0 - atan2 (-salp1o) calp1o / GeoMath.degree else 0,
    azi2 := if outmask &&& GeodesicMask.AZIMUTH ≠ 0 then
        0 - atan2 (-salp2o) calp2o / GeoMath.degree else 0 }

/-- `GeodesicRay` (`GeodesicLine`): immutable snapshot of the start point,
azimuth, capability mask, and every per-ray precomputation of the
constructor.  The source guards each block of precomputed fields by its
`CAP_*` bit and leaves them `undefined` otherwise; they are modelled
unconditionally, since `GenPosition` reads each one only under the same
bit. -/
structure GeodesicLine where
  a : ℝ
  f : ℝ
  b : ℝ
  c2 : ℝ
  f1 : ℝ
  caps : ℕ
  lat1 : ℝ
  lon1 : ℝ
  azi1 : ℝ
  salp1 : ℝ
  calp1 : ℝ
  dn1 : ℝ
  salp0 : ℝ
  calp0 : ℝ
  ssig1 : ℝ
  somg1 : ℝ
  csig1 : ℝ
  comg1 : ℝ
  k2 : ℝ
  A1m1 : ℝ
  C1a : ℕ → ℝ
  B11 : ℝ
  stau1 : ℝ
  ctau1 : ℝ
  C1pa : ℕ → ℝ
  A2m1 : ℝ
  C2a : ℕ → ℝ
  B21 : ℝ
  C3a : ℕ → ℝ
  A3c : ℝ
  B31 : ℝ
  C4a : ℕ → ℝ
  A4 : ℝ
  B41 : ℝ

/-- The `GeodesicLine` constructor's capability fixup:
`!caps ? ALL : caps | LATITUDE | AZIMUTH`. -/
def lineCaps (caps : ℕ) : ℕ :=
  if caps = 0 then GeodesicMask.ALL
  else caps ||| GeodesicMask.LATITUDE ||| GeodesicMask.AZIMUTH

/-- The `GeodesicLine` constructor: normalize the azimuth and longitude,
compute the auxiliary-sphere coordinates of the start point, and the per-ray
series values at the ray's own `eps`. -/
noncomputable def GeodesicLine.mk' (geod : Geodesic) (lat1 lon10 azi10 : ℝ)
    (caps0 : ℕ) : GeodesicLine :=
  let caps := lineCaps caps0
  let azi1 := Geodesic.AngRound (GeoMath.angNormalize azi10)
  let lon1 := GeoMath.angNormalize lon10
  let alp1 := azi1 * GeoMath.degree
  let salp1 := if azi1 = -180 then 0 else Real.sin alp1
  let calp1 := if |azi1| = 90 then 0 else Real.cos alp1
  let phi := lat1 * GeoMath.degree
  let sbet1a := geod.f1 * Real.sin phi
  let cbet1a := if |lat1| = 90 then Accuracy.tiny else Real.cos phi
  let t := GeoMath.hypot sbet1a cbet1a
  let sbet1 := sbet1a / t
  let cbet1 := cbet1a / t
  let dn1 := Real.sqrt (1 + geod.ep2 * GeoMath.sq sbet1)
  let salp0 := salp1 * cbet1
  let calp0 := GeoMath.hypot calp1 (salp1 * sbet1)
  let ssig1a := sbet1
  let somg1 := salp0 * sbet1
  let csig1a := if sbet1 ≠ 0 ∨ calp1 ≠ 0 then cbet1 * calp1 else 1
  let comg1 := csig1a
  let t2 := GeoMath.hypot ssig1a csig1a
  let ssig1 := ssig1a / t2
  let csig1 := csig1a / t2
  let k2 := GeoMath.sq calp0 * geod.ep2
  let eps := k2 / (2 * (1 + Real.sqrt (1 + k2)) + k2)
  let A1m1 := Geodesic.A1m1f eps
  let C1a := Geodesic.C1f eps
  let B11 := Geodesic.SinCosSeries true ssig1 csig1 C1a Accuracy.nC1
  let stau1 := ssig1 * Real.cos B11 + csig1 * Real.sin B11
  let ctau1 := csig1 * Real.cos B11 - ssig1 * Real.sin B11
  let C1pa := Geodesic.C1pf eps
  let A2m1 := Geodesic.A2m1f eps
  let C2a := Geodesic.C2f eps
  let B21 := Geodesic.SinCosSeries true ssig1 csig1 C2a Accuracy.nC2
  let C3a := geod.C3f eps
  let A3c := -geod.f * salp0 * geod.A3f eps
  let B31 := Geodesic.SinCosSeries true ssig1 csig1 C3a (Accuracy.nC3 - 1)
  let C4a := geod.C4f eps
  let A4 := GeoMath.sq geod.a * calp0 * salp0 * geod.e2
  let B41 := Geodesic.SinCosSeries false ssig1 csig1 C4a Accuracy.nC4
  { a := geod.a, f := geod.f, b := geod.b, c2 := geod.c2, f1 := geod.f1,
    caps := caps, lat1 := lat1, lon1 := lon1, azi1 := azi1,
    salp1 := salp1, calp1 := calp1, dn1 := dn1, salp0 := salp0, calp0 := calp0,
    ssig1 := ssig1, somg1 := somg1, csig1 := csig1, comg1 := comg1, k2 := k2,
    A1m1 := A1m1, C1a := C1a, B11 := B11, stau1 := stau1, ctau1 := ctau1,
    C1pa := C1pa, A2m1 := A2m1, C2a := C2a, B21 := B21,
    C3a := C3a, A3c := A3c, B31 := B31, C4a := C4a, A4 := A4, B41 := B41 }

/-- Result record of `GenPosition`.  `a12 = none` is the embedded form of
the source's `Number.NaN`, its sole error signal. -/
structure PositionVals where
  a12 : Option ℝ
  s12 : ℝ
  lon2 : ℝ
  lat2 : ℝ
  azi2 : ℝ
  m12 : ℝ
  M12 : ℝ
  M21 : ℝ
  S12 : ℝ

/-- `GeodesicLine.prototype.GenPosition(arcmode, s12_a12, outmask)`: if the
ray's caps lack the `DISTANCE_IN` output bit and `arcmode` is false, return
the all-default record with `a12 = none` (NaN); otherwise solve for the end
point, populating only the fields selected by `outmask ∩ caps`. -/
noncomputable def GeodesicLine.GenPosition (L : GeodesicLine) (arcmode : Bool)
    (s12a12 : ℝ) (outmask0 : ℕ) : PositionVals :=
  let outmask := outmask0 &&& (L.caps &&& GeodesicMask.OUT_ALL)
  if ¬(arcmode = true ∨ L.caps &&& GeodesicMask.DISTANCE_IN &&& GeodesicMask.OUT_ALL ≠ 0) then
    { a12 := none, s12 := 0, lon2 := 0, lat2 := 0, azi2 := 0,
      m12 := 0, M12 := 0, M21 := 0, S12 := 0 }
  else
    let q : ℝ × ℝ × ℝ × ℝ :=
      if arcmode then
        let sig12 := s12a12 * GeoMath.degree
        let s12a0 := |s12a12|
        let s12a := s12a0 - 180 * ((⌊s12a0 / 180⌋ : ℤ) : ℝ)
        (sig12, if s12a = 0 then 0 else Real.sin sig12,
         if s12a = 90 then 0 else Real.cos sig12, 0)
      else
        let tau12 := s12a12 / (L.b * (1 + L.A1m1))
        let s := Real.sin tau12
        let c := Real.cos tau12
        let B12 := -Geodesic.SinCosSeries true (L.stau1 * c + L.ctau1 * s)
            (L.ctau1 * c - L.stau1 * s) L.C1pa Accuracy.nC1p
        let sig12 := tau12 - (B12 - L.B11)
        let ssig12 := Real.sin sig12
        let csig12 := Real.cos sig12
        if |L.f| > 0.01 then
          let ssig2 := L.ssig1 * csig12 + L.csig1 * ssig12
          let csig2 := L.csig1 * csig12 - L.ssig1 * ssig12
          let B12' := Geodesic.SinCosSeries true ssig2 csig2 L.C1a Accuracy.nC1
          let serr := (1 + L.A1m1) * (sig12 + (B12' - L.B11)) - s12a12 / L.b
          let sig12' := sig12 - serr / Real.sqrt (1 + L.k2 * GeoMath.sq ssig2)
          (sig12', Real.sin sig12', Real.cos sig12', B12')
        else (sig12, ssig12, csig12, B12)
    let sig12 := q.1
    let ssig12 := q.2.1
    let csig12 := q.2.2.1
    let B12a := q.2.2.2
    let ssig2 := L.ssig1 * csig12 + L.csig1 * ssig12
    let csig2a := L.csig1 * csig12 - L.ssig1 * ssig12
    let dn2 := Real.sqrt (1 + L.k2 * GeoMath.sq ssig2)
    let lenmask := GeodesicMask.DISTANCE ||| GeodesicMask.REDUCEDLENGTH |||
        GeodesicMask.GEODESICSCALE
    let B12 :=
      if outmask &&& lenmask ≠ 0 ∧ (arcmode = true ∨ |L.f| > 0.01) then
        Geodesic.SinCosSeries true ssig2 csig2a L.C1a Accuracy.nC1
      else B12a
    let AB1 := if outmask &&& lenmask ≠ 0 then (1 + L.A1m1) * (B12 - L.B11) else 0
    let sbet2 := L.calp0 * ssig2
    let cbet2a := GeoMath.hypot L.salp0 (L.calp0 * csig2a)
    let cbet2 := if cbet2a = 0 then Accuracy.tiny else cbet2a
    let csig2 := if cbet2a = 0 then Accuracy.tiny else csig2a
    let somg2 := L.salp0 * ssig2
    let comg2 := csig2
    let salp2 := L.salp0
    let calp2 := L.calp0 * csig2
    let omg12 := atan2 (somg2 * L.comg1 - comg2 * L.somg1)
        (comg2 * L.comg1 + somg2 * L.somg1)
    let m12M : ℝ × ℝ × ℝ :=
      if outmask &&& (GeodesicMask.REDUCEDLENGTH ||| GeodesicMask.GEODESICSCALE) ≠ 0 then
        let B22 := Geodesic.SinCosSeries true ssig2 csig2 L.C2a Accuracy.nC2
        let AB2 := (1 + L.A2m1) * (B22 - L.B21)
        let J12 := (L.A1m1 - L.A2m1) * sig12 + (AB1 - AB2)
        (if outmask &&& GeodesicMask.REDUCEDLENGTH ≠ 0 then
           L.b * ((dn2 * (L.csig1 * ssig2) - L.dn1 * (L.ssig1 * csig2)) -
             L.csig1 * csig2 * J12)
         else 0,
         if outmask &&& GeodesicMask.GEODESICSCALE ≠ 0 then
           let t := L.k2 * (ssig2 - L.ssig1) * (ssig2 + L.ssig1) / (L.dn1 + dn2)
           csig12 + (t * ssig2 - csig2 * J12) * L.ssig1 / L.dn1
         else 0,
         if outmask &&& GeodesicMask.GEODESICSCALE ≠ 0 then
           let t := L.k2 * (ssig2 - L.ssig1) * (ssig2 + L.ssig1) / (L.dn1 + dn2)
           csig12 - (t * L.ssig1 - L.csig1 * J12) * ssig2 / dn2
         else 0)
      else (0, 0, 0)
    let S12v :=
      if outmask &&& GeodesicMask.AREA ≠ 0 then
        let B42 := Geodesic.SinCosSeries false ssig2 csig2 L.C4a Accuracy.nC4
        let p : ℝ × ℝ :=
          if L.calp0 = 0 ∨ L.salp0 = 0 then
            let salp12 := salp2 * L.calp1 - calp2 * L.salp1
            let calp12 := calp2 * L.calp1 + salp2 * L.salp1
            if salp12 = 0 ∧ calp12 < 0 then (Accuracy.tiny * L.calp1, -1)
            else (salp12, calp12)
          else
            (L.calp0 * L.salp0 *
               (if csig12 ≤ 0 then L.csig1 * (1 - csig12) + ssig12 * L.ssig1
                else ssig12 * (L.csig1 * ssig12 / (1 + csig12) + L.ssig1)),
             GeoMath.sq L.salp0 + GeoMath.sq L.calp0 * L.csig1 * csig2)
        L.c2 * atan2 p.1 p.2 + L.A4 * (B42 - L.B41)
      else 0
    { a12 := some (if arcmode then s12a12 else sig12 / GeoMath.degree),
      s12 := if outmask &&& GeodesicMask.DISTANCE ≠ 0 then
          (if arcmode then L.b * ((1 + L.A1m1) * sig12 + AB1) else s12a12)
        else 0,
      lon2 := if outmask &&& GeodesicMask.LONGITUDE ≠ 0 then
          let lam12 := omg12 + L.A3c *
              (sig12 + (Geodesic.SinCosSeries true ssig2 csig2 L.C3a
                 (Accuracy.nC3 - 1) - L.B31))
          let lon12 := GeoMath.angNormalize2 (lam12 / GeoMath.degree)
          GeoMath.angNormalize (L.lon1 + lon12)
        else 0,
      lat2 := if outmask &&& GeodesicMask.LATITUDE ≠ 0 then
          atan2 sbet2 (L.f1 * cbet2) / GeoMath.degree
        else 0,
      azi2 := if outmask &&& GeodesicMask.AZIMUTH ≠ 0 then
          0 - atan2 (-salp2) calp2 / GeoMath.degree
        else 0,
      m12 := m12M.1, M12 := m12M.2.1, M21 := m12M.2.2, S12 := S12v }

/-- A sample ray whose capability mask is `LATITUDE | AZIMUTH` only (number
fields irrelevant), used to instantiate universally quantified statements. -/
noncomputable def sampleLineLatAz : GeodesicLine :=
  { a := 0, f := 0, b := 0, c2 := 0, f1 := 0,
    caps := GeodesicMask.LATITUDE ||| GeodesicMask.AZIMUTH,
    lat1 := 0, lon1 := 0, azi1 := 0, salp1 := 0, calp1 := 0, dn1 := 0,
    salp0 := 0, calp0 := 0, ssig1 := 0, somg1 := 0, csig1 := 0, comg1 := 0,
    k2 := 0, A1m1 := 0, C1a := fun _ => 0, B11 := 0, stau1 := 0, ctau1 := 0,
    C1pa := fun _ => 0, A2m1 := 0, C2a := fun _ => 0, B21 := 0,
    C3a := fun _ => 0, A3c := 0, B31 := 0, C4a := fun _ => 0, A4 := 0, B41 := 0 }

/-- A sample loop state at the Newton cutoff `numit = maxit1`, used to
instantiate universally quantified statements. -/
noncomputable def sampleLoopState : LoopState :=
  { salp1 := 0, calp1 := 0, salp2 := 0, calp2 := 0, sig12 := 0,
    ssig1 := 0, csig1 := 0, ssig2 := 0, csig2 := 0, eps := 0, domg12 := 0,
    salp1a := 0, calp1a := 0, salp1b := 0, calp1b := 0,
    tripn := false, tripb := false, numit := Accuracy.maxit1 }

/- ------------------------------------------------------------------ -/
/- Theorems                                                            -/
/- ------------------------------------------------------------------ -/

/-- Bit masking: if `a` has no bits in common with `c`, neither does
`a &&& b`. -/
theorem and_and_eq_zero_left {a c : ℕ} (b : ℕ) (h : a &&& c = 0) :
    a &&& b &&& c = 0 := by
  rw [Nat.and_assoc, Nat.and_comm b c, ← Nat.and_assoc, h, Nat.zero_and]

/-- Over `ℝ` the double-rounding trick `z - (z - y)` is exact, so `AngRound`
is the identity (in doubles it rounds tiny values, its whole purpose). -/
theorem angRound_id (x : ℝ) : Geodesic.AngRound x = x := by
  simp only [Geodesic.AngRound]
  have h1 : (1 : ℝ) / 16 - (1 / 16 - |x|) = |x| := by ring
  rw [h1]
  simp only [ite_self]
  rcases le_or_lt 0 x with h | h
  · rw [if_neg (not_lt.mpr h), abs_of_nonneg h]
  · rw [if_pos h, abs_of_neg h, neg_neg]

/-- Over `ℝ` the compensation term of `angDiff` vanishes: it is the plain
difference folded once into `[-180, 180]`. -/
theorem angDiff_eval (x y : ℝ) : GeoMath.angDiff x y =
    if 180 < y - x then y - x - 360
    else if y - x ≤ -180 then y - x + 360
    else y - x := by
  unfold GeoMath.angDiff
  have e1 : y - x + x - (y - x) - x - (y - x + x - y) = 0 := by ring
  simp only [e1]
  split_ifs
  all_goals try ring
  all_goals linarith

/-- `hypot 0 1 = 1`. -/
theorem hypot_zero_one : GeoMath.hypot 0 1 = 1 := by
  unfold GeoMath.hypot
  norm_num

/-- `atan2 y 0 = ±π/2` by the sign of `y`. -/
theorem atan2_pos_zero (y : ℝ) (h : 0 < y) : atan2 y 0 = Real.pi / 2 := by
  unfold atan2
  rw [if_neg (lt_irrefl 0), if_neg (lt_irrefl 0), if_pos h]

theorem atan2_neg_zero (y : ℝ) (h : y < 0) : atan2 y 0 = -(Real.pi / 2) := by
  unfold atan2
  rw [if_neg (lt_irrefl 0), if_neg (lt_irrefl 0), if_neg (by linarith), if_pos h]

/-- `(π/2) / degree = 90`. -/
theorem pi_div_two_div_degree : Real.pi / 2 / GeoMath.degree = 90 := by
  unfold GeoMath.degree
  field_simp
  ring

/-- `π / degree = 180`. -/
theorem pi_div_degree : Real.pi / GeoMath.degree = 180 := by
  unfold GeoMath.degree
  field_simp

/-- `atan2 0 (-1) = π` (the positive-`x`-axis-referenced angle of `(-1, 0)`). -/
theorem atan2_zero_neg_one : atan2 0 (-1) = Real.pi := by
  unfold atan2
  norm_num [Real.arctan_zero]

/-- In the open third quadrant `atan2` is `arctan` shifted down by `π`. -/
theorem atan2_neg_neg_of_neg (y x : ℝ) (hy : y < 0) (hx : x < 0) :
    atan2 y x = Real.arctan (y / x) - Real.pi := by
  unfold atan2
  rw [if_neg (not_lt.mpr hx.le), if_pos hx, if_neg (not_le.mpr hy)]

/-- `tiny = sqrt(min) > 0`. -/
theorem tiny_pos : 0 < Accuracy.tiny := by
  unfold Accuracy.tiny GeoMath.minD
  positivity

/-- `atan2 (-tiny) (-1) = arctan tiny - π`. -/
theorem atan2_neg_tiny : atan2 (-Accuracy.tiny) (-1) = Real.arctan Accuracy.tiny - Real.pi := by
  rw [atan2_neg_neg_of_neg _ _ (neg_neg_iff_pos.mpr tiny_pos) (by norm_num)]
  norm_num

/-- A sine-type Clenshaw sum with `sinx = 0` is `0` whatever the
coefficients (the final multiplier is `2 sinx cosx`). -/
theorem sinCosSeries_sin_zero (cosx : ℝ) (c : ℕ → ℝ) (n : ℕ) :
    Geodesic.SinCosSeries true 0 cosx c n = 0 := by
  simp [Geodesic.SinCosSeries]

/-- `A1m1f 0 = 0`. -/
theorem a1m1f_zero : Geodesic.A1m1f 0 = 0 := by
  norm_num [Geodesic.A1m1f, GeoMath.sq]

/-- `A2m1f 0 = 0`. -/
theorem a2m1f_zero : Geodesic.A2m1f 0 = 0 := by
  norm_num [Geodesic.A2m1f, GeoMath.sq]

/-- `Lengths` at `eps = 0` on the degenerate meridian frame
`(ssig1, csig1) = (0, -1)`, `(ssig2, csig2) = (0, 1)`: the reduced length
vanishes. -/
theorem lengths_meridian_m12b (g : Geodesic) (sig12 : ℝ) (sp : Bool) :
    (g.Lengths 0 sig12 0 (-1) 1 0 1 1 1 1 sp).m12b = 0 := by
  cases sp <;>
    simp [Geodesic.Lengths, sinCosSeries_sin_zero, a1m1f_zero, a2m1f_zero]

/-- Companion to the previous lemma: the distance integrand reduces to the
arc itself. -/
theorem lengths_meridian_s12b (g : Geodesic) (sig12 : ℝ) (sp : Bool) :
    (g.Lengths 0 sig12 0 (-1) 1 0 1 1 1 1 sp).s12b = sig12 := by
  cases sp <;>
    simp [Geodesic.Lengths, sinCosSeries_sin_zero, a1m1f_zero, a2m1f_zero]

/-- Derived constants of the unit sphere `Geodesic.mk' 1 0`. -/
theorem mk_sphere_fields : (Geodesic.mk' 1 0).a = 1 ∧ (Geodesic.mk' 1 0).f = 0 ∧
    (Geodesic.mk' 1 0).f1 = 1 ∧ (Geodesic.mk' 1 0).e2 = 0 ∧ (Geodesic.mk' 1 0).ep2 = 0 ∧
    (Geodesic.mk' 1 0).n = 0 ∧ (Geodesic.mk' 1 0).b = 1 ∧ (Geodesic.mk' 1 0).c2 = 1 := by
  norm_num [Geodesic.mk', GeoMath.sq]

/-- Negating both arguments of `atan2` shifts the angle by `±π` (for a
point away from the origin). -/
theorem atan2_neg_both (y x : ℝ) (h : ¬(y = 0 ∧ x = 0)) :
    atan2 (-y) (-x) = atan2 y x + Real.pi ∨ atan2 (-y) (-x) = atan2 y x - Real.pi := by
  unfold atan2
  rcases lt_trichotomy x 0 with hx | hx | hx
  · rcases le_or_lt 0 y with hy | hy
    · right
      rw [if_pos (by linarith : (0 : ℝ) < -x), if_neg (not_lt.mpr hx.le), if_pos hx,
        if_pos hy, neg_div_neg_eq]
      ring
    · left
      rw [if_pos (by linarith : (0 : ℝ) < -x), if_neg (not_lt.mpr hx.le), if_pos hx,
        if_neg (not_le.mpr hy), neg_div_neg_eq]
      ring
  · subst hx
    have hy : y ≠ 0 := fun h0 => h ⟨h0, rfl⟩
    rcases lt_or_gt_of_ne hy with hy' | hy'
    · left
      rw [neg_zero, if_neg (lt_irrefl (0 : ℝ)), if_neg (lt_irrefl (0 : ℝ)),
        if_neg (lt_irrefl (0 : ℝ)), if_neg (lt_irrefl (0 : ℝ)),
        if_pos (by linarith : (0 : ℝ) < -y), if_neg (not_lt.mpr hy'.le), if_pos hy']
      ring
    · right
      rw [neg_zero, if_neg (lt_irrefl (0 : ℝ)), if_neg (lt_irrefl (0 : ℝ)),
        if_neg (lt_irrefl (0 : ℝ)), if_neg (lt_irrefl (0 : ℝ)),
        if_neg (by linarith : ¬ (0 : ℝ) < -y), if_pos (by linarith : -y < 0),
        if_pos hy']
      ring
  · rcases le_or_lt y 0 with hy | hy
    · left
      rw [if_neg (by linarith : ¬ (0 : ℝ) < -x), if_pos (by linarith : -x < 0),
        if_pos (by linarith : (0 : ℝ) ≤ -y), if_pos hx, neg_div_neg_eq]
    · right
      rw [if_neg (by linarith : ¬ (0 : ℝ) < -x), if_pos (by linarith : -x < 0),
        if_neg (by linarith : ¬ (0 : ℝ) ≤ -y), if_pos hx, neg_div_neg_eq]

/-- The reversed-azimuth identity in the output convention of `GenInverse`:
flipping `sin α` relative to the output sign and negating `cos α` moves the
azimuth by `±180°`. -/
theorem atan2_swap_azi (y x : ℝ) (h : ¬(y = 0 ∧ x = 0)) :
    0 - atan2 y (-x) / GeoMath.degree = (0 - atan2 (-y) x / GeoMath.degree) + 180 ∨
    0 - atan2 y (-x) / GeoMath.degree = (0 - atan2 (-y) x / GeoMath.degree) - 180 := by
  have h' : ¬(-y = 0 ∧ x = 0) := fun hh => h ⟨neg_eq_zero.mp hh.1, hh.2⟩
  rcases atan2_neg_both (-y) x h' with hc | hc
  · rw [neg_neg] at hc
    right
    rw [hc, add_div, pi_div_degree]
    ring
  · rw [neg_neg] at hc
    left
    rw [hc, sub_div, pi_div_degree]
    ring

/-- Canonicalization with the first point strictly more polar: no swap
(`swapp = 1`), latitudes and the longitude difference are sign-normalized in
place. -/
theorem canonInverse_noswap (lat1 lon1 lat2 lon2 : ℝ) (hlat : |lat2| < |lat1|) :
    canonInverse lat1 lon1 lat2 lon2 =
      { lat1 := (if lat1 < 0 then (1 : ℝ) else -1) * lat1,
        lat2 := (if lat1 < 0 then (1 : ℝ) else -1) * lat2,
        lon12 := (if GeoMath.angDiff (GeoMath.angNormalize lon1)
            (GeoMath.angNormalize lon2) ≥ 0 then (1 : ℝ) else -1) *
          GeoMath.angDiff (GeoMath.angNormalize lon1) (GeoMath.angNormalize lon2),
        lonsign := if GeoMath.angDiff (GeoMath.angNormalize lon1)
            (GeoMath.angNormalize lon2) ≥ 0 then 1 else -1,
        latsign := if lat1 < 0 then 1 else -1,
        swapp := 1 } := by
  simp only [canonInverse, angRound_id]
  rw [if_pos (show |lat1| ≥ |lat2| from hlat.le)]
  norm_num

/-- Canonicalization of the swapped call under the same strict ordering:
`swapp = -1`, and (when the reduced longitude difference is antisymmetric
and nonzero) the same canonical latitudes, `lon12` and final signs as the
unswapped call. -/
theorem canonInverse_doswap (lat1 lon1 lat2 lon2 : ℝ) (hlat : |lat2| < |lat1|)
    (hd0 : GeoMath.angDiff (GeoMath.angNormalize lon1) (GeoMath.angNormalize lon2) ≠ 0)
    (hanti : GeoMath.angDiff (GeoMath.angNormalize lon2) (GeoMath.angNormalize lon1) =
      -GeoMath.angDiff (GeoMath.angNormalize lon1) (GeoMath.angNormalize lon2)) :
    canonInverse lat2 lon2 lat1 lon1 =
      { lat1 := (if lat1 < 0 then (1 : ℝ) else -1) * lat1,
        lat2 := (if lat1 < 0 then (1 : ℝ) else -1) * lat2,
        lon12 := (if GeoMath.angDiff (GeoMath.angNormalize lon1)
            (GeoMath.angNormalize lon2) ≥ 0 then (1 : ℝ) else -1) *
          GeoMath.angDiff (GeoMath.angNormalize lon1) (GeoMath.angNormalize lon2),
        lonsign := if GeoMath.angDiff (GeoMath.angNormalize lon1)
            (GeoMath.angNormalize lon2) ≥ 0 then 1 else -1,
        latsign := if lat1 < 0 then 1 else -1,
        swapp := -1 } := by
  set d := GeoMath.angDiff (GeoMath.angNormalize lon1) (GeoMath.angNormalize lon2) with hd
  simp only [canonInverse, angRound_id, hanti]
  rw [if_neg (show ¬ |lat2| ≥ |lat1| from not_le.mpr hlat)]
  rcases lt_or_gt_of_ne hd0 with hneg | hpos
  · simp only [if_pos (show -d ≥ 0 by linarith), if_neg (show ¬ d ≥ 0 from not_le.mpr hneg)]
    norm_num
  · simp only [if_neg (show ¬ -d ≥ 0 by simp; linarith), if_pos (show d ≥ 0 from hpos.le)]
    norm_num

/-- In the canonical frame shared by the two calls, a `±1` sign never
vanishes. -/
theorem sign_if_ne_zero (p : Prop) [Decidable p] :
    (if p then (1 : ℝ) else -1) ≠ 0 := by
  split_ifs <;> norm_num

/-- In the canonical frame, the unit-sphere antipodal equatorial pair
(`lat1 = lat2 = 0`, `lon12 = 180`) is resolved by the meridian branch
(`slam12` is forced to `0` at `lon12 = 180`), and the area block's
degenerate-`alp12` fixup gives `S12raw = arctan tiny - π`. -/
theorem genInverseCore_sphere_antipodal :
    (genInverseCore (Geodesic.mk' 1 0) 0 0 180
        (GeodesicMask.AREA &&& GeodesicMask.OUT_ALL)).S12raw =
      Real.arctan Accuracy.tiny - Real.pi := by
  obtain ⟨ha, hf, hf1, he2, hep2, hn, hb, hc2⟩ := mk_sphere_fields
  have h180 : (180 : ℝ) * GeoMath.degree = Real.pi := by
    unfold GeoMath.degree; ring
  have hsc : ¬ (GeodesicMask.AREA &&& GeodesicMask.OUT_ALL &&&
      GeodesicMask.GEODESICSCALE ≠ 0) := by decide
  have har : GeodesicMask.AREA &&& GeodesicMask.OUT_ALL &&& GeodesicMask.AREA ≠ 0 := by
    decide
  simp only [genInverseCore]
  norm_num [ha, hf, hf1, he2, hep2, hn, hb, hc2, GeoMath.sq, hypot_zero_one, h180,
    Real.cos_pi, Real.sqrt_one, atan2_zero_neg_one, lengths_meridian_m12b,
    lengths_meridian_s12b, hsc, har, atan2_neg_tiny]

/-- Canonicalization of a pair of equatorial points: both latitudes stay
`0`, the longitude difference becomes `|d|`, `swapp = 1`, `latsign = -1`. -/
theorem canonInverse_both_zero (lon1 lon2 : ℝ) :
    canonInverse 0 lon1 0 lon2 =
      { lat1 := 0, lat2 := 0,
        lon12 := |GeoMath.angDiff (GeoMath.angNormalize lon1) (GeoMath.angNormalize lon2)|,
        lonsign := if GeoMath.angDiff (GeoMath.angNormalize lon1)
            (GeoMath.angNormalize lon2) ≥ 0 then 1 else -1,
        latsign := -1, swapp := 1 } := by
  set d := GeoMath.angDiff (GeoMath.angNormalize lon1) (GeoMath.angNormalize lon2) with hd
  have habs : (if d ≥ 0 then (1 : ℝ) else -1) * d = |d| := by
    rcases le_or_lt 0 d with h | h
    · rw [if_pos h, one_mul, abs_of_nonneg h]
    · rw [if_neg (not_le.mpr h), abs_of_neg h]; ring
  simp only [canonInverse, angRound_id, ← hd, habs]
  norm_num

/-- In the canonical frame, two equatorial points with a longitude
difference in the admissible range are solved by the closed-form equatorial
branch: `s12x = a λ12`, `a12 = lon12/f1`, `sin α = 1`, `cos α = 0` at both
ends, and (when requested) `M12 = M21 = cos(λ12/f1)`. -/
theorem genInverseCore_equatorial (g : Geodesic) (L : ℝ) (m : ℕ)
    (hL0 : 0 < L) (hL1 : L < 180)
    (heq : g.f ≤ 0 ∨ L * GeoMath.degree ≤ Real.pi - g.f * Real.pi) :
    (genInverseCore g 0 0 L m).salp1 = 1 ∧
    (genInverseCore g 0 0 L m).calp1 = 0 ∧
    (genInverseCore g 0 0 L m).salp2 = 1 ∧
    (genInverseCore g 0 0 L m).calp2 = 0 ∧
    (genInverseCore g 0 0 L m).s12x = g.a * (L * GeoMath.degree) ∧
    (genInverseCore g 0 0 L m).a12 = L / g.f1 ∧
    (genInverseCore g 0 0 L m).M12 =
      (if m &&& GeodesicMask.GEODESICSCALE ≠ 0 then
        Real.cos (L * GeoMath.degree / g.f1) else 0) ∧
    (genInverseCore g 0 0 L m).M21 =
      (if m &&& GeodesicMask.GEODESICSCALE ≠ 0 then
        Real.cos (L * GeoMath.degree / g.f1) else 0) := by
  have hπ := Real.pi_pos
  have hdeg : GeoMath.degree = Real.pi / 180 := rfl
  have hlam0 : 0 < L * GeoMath.degree := by
    rw [hdeg]; positivity
  have hlamπ : L * GeoMath.degree < Real.pi := by
    rw [hdeg]; nlinarith
  have hslam : Real.sin (L * GeoMath.degree) ≠ 0 :=
    ne_of_gt (Real.sin_pos_of_pos_of_lt_pi hlam0 hlamπ)
  have hL180 : L ≠ 180 := by linarith
  simp only [genInverseCore]
  norm_num [GeoMath.sq, hypot_zero_one, hslam, hL180, heq]

/-- The full `GenInverse` on a pair of equatorial points within range: the
equatorial closed form, with azimuths `±90°` by the sign of the normalized
longitude difference `d`. -/
theorem genInverse_equatorial_fields (a f lon1 lon2 : ℝ) (m : ℕ) (hf : f ≤ 1)
    (hd0 : GeoMath.angDiff (GeoMath.angNormalize lon1) (GeoMath.angNormalize lon2) ≠ 0)
    (hdl : -180 < GeoMath.angDiff (GeoMath.angNormalize lon1) (GeoMath.angNormalize lon2))
    (hdu : GeoMath.angDiff (GeoMath.angNormalize lon1) (GeoMath.angNormalize lon2) < 180)
    (heq : f ≤ 0 ∨ |GeoMath.angDiff (GeoMath.angNormalize lon1) (GeoMath.angNormalize lon2)| *
        GeoMath.degree ≤ Real.pi - f * Real.pi) :
    ((Geodesic.mk' a f).GenInverse 0 lon1 0 lon2 m).a12 =
      |GeoMath.angDiff (GeoMath.angNormalize lon1) (GeoMath.angNormalize lon2)| / (1 - f) ∧
    (m &&& GeodesicMask.OUT_ALL &&& GeodesicMask.DISTANCE ≠ 0 →
      ((Geodesic.mk' a f).GenInverse 0 lon1 0 lon2 m).s12 =
        a * (|GeoMath.angDiff (GeoMath.angNormalize lon1) (GeoMath.angNormalize lon2)| *
          GeoMath.degree)) ∧
    (m &&& GeodesicMask.OUT_ALL &&& GeodesicMask.AZIMUTH ≠ 0 →
      ((Geodesic.mk' a f).GenInverse 0 lon1 0 lon2 m).azi1 =
        (if 0 < GeoMath.angDiff (GeoMath.angNormalize lon1) (GeoMath.angNormalize lon2)
          then (90 : ℝ) else -90) ∧
      ((Geodesic.mk' a f).GenInverse 0 lon1 0 lon2 m).azi2 =
        (if 0 < GeoMath.angDiff (GeoMath.angNormalize lon1) (GeoMath.angNormalize lon2)
          then (90 : ℝ) else -90)) ∧
    (m &&& GeodesicMask.OUT_ALL &&& GeodesicMask.GEODESICSCALE ≠ 0 →
      ((Geodesic.mk' a f).GenInverse 0 lon1 0 lon2 m).M12 =
        Real.cos (|GeoMath.angDiff (GeoMath.angNormalize lon1) (GeoMath.angNormalize lon2)| *
          GeoMath.degree / (1 - f)) ∧
      ((Geodesic.mk' a f).GenInverse 0 lon1 0 lon2 m).M21 =
        Real.cos (|GeoMath.angDiff (GeoMath.angNormalize lon1) (GeoMath.angNormalize lon2)| *
          GeoMath.degree / (1 - f))) := by
  set d := GeoMath.angDiff (GeoMath.angNormalize lon1) (GeoMath.angNormalize lon2) with hd
  have hfa : (Geodesic.mk' a f).f = f := by
    simp [Geodesic.mk', hf]
  have hf1 : (Geodesic.mk' a f).f1 = 1 - f := by
    simp [Geodesic.mk', hf]
  have ha : (Geodesic.mk' a f).a = a := by
    simp [Geodesic.mk']
  have habs0 : 0 < |d| := abs_pos.mpr hd0
  have habs1 : |d| < 180 := abs_lt.mpr ⟨hdl, hdu⟩
  have hcore := genInverseCore_equatorial (Geodesic.mk' a f) |d|
    (m &&& GeodesicMask.OUT_ALL) habs0 habs1 (by rw [hfa]; exact heq)
  obtain ⟨hs1, hc1, hs2, hc2, hs12, ha12, hM12, hM21⟩ := hcore
  refine ⟨?_, ?_, ?_, ?_⟩
  · simp only [Geodesic.GenInverse, canonInverse_both_zero, ← hd]
    rw [ha12, hf1]
  · intro hm
    simp only [Geodesic.GenInverse, canonInverse_both_zero, ← hd]
    rw [if_pos hm, hs12, ha]
    ring
  · intro hm
    have hfin : -(atan2 (-(if 0 ≤ d then (1 : ℝ) else -1)) 0 / GeoMath.degree) =
        (if 0 < d then (90 : ℝ) else -90) := by
      rcases lt_or_gt_of_ne hd0 with h | h
      · rw [if_neg (not_le.mpr h), if_neg (by linarith), neg_neg,
          atan2_pos_zero 1 one_pos, pi_div_two_div_degree]
      · rw [if_pos (le_of_lt h), if_pos h, atan2_neg_zero (-1) (by norm_num),
          neg_div, neg_neg, pi_div_two_div_degree]
    constructor
    · simp only [Geodesic.GenInverse, canonInverse_both_zero, ← hd]
      rw [if_pos hm]
      norm_num [hs1, hc1]
      exact hfin
    · simp only [Geodesic.GenInverse, canonInverse_both_zero, ← hd]
      rw [if_pos hm]
      norm_num [hs2, hc2]
      exact hfin
  · intro hm
    constructor
    · simp only [Geodesic.GenInverse, canonInverse_both_zero, ← hd]
      rw [show ((if (1 : ℝ) < 0 ∧ m &&& GeodesicMask.OUT_ALL &&& GeodesicMask.GEODESICSCALE ≠ 0
          then (genInverseCore (Geodesic.mk' a f) 0 0 |d| (m &&& GeodesicMask.OUT_ALL)).M21
          else (genInverseCore (Geodesic.mk' a f) 0 0 |d| (m &&& GeodesicMask.OUT_ALL)).M12)) =
          (genInverseCore (Geodesic.mk' a f) 0 0 |d| (m &&& GeodesicMask.OUT_ALL)).M12 from
        if_neg (by norm_num)]
      rw [hM12, if_pos hm, hf1]
    · simp only [Geodesic.GenInverse, canonInverse_both_zero, ← hd]
      rw [show ((if (1 : ℝ) < 0 ∧ m &&& GeodesicMask.OUT_ALL &&& GeodesicMask.GEODESICSCALE ≠ 0
          then (genInverseCore (Geodesic.mk' a f) 0 0 |d| (m &&& GeodesicMask.OUT_ALL)).M12
          else (genInverseCore (Geodesic.mk' a f) 0 0 |d| (m &&& GeodesicMask.OUT_ALL)).M21)) =
          (genInverseCore (Geodesic.mk' a f) 0 0 |d| (m &&& GeodesicMask.OUT_ALL)).M21 from
        if_neg (by norm_num)]
      rw [hM21, if_pos hm, hf1]

/-- The capability fixup of the `GeodesicLine` constructor, read off the
record. -/
theorem geodesicLine_mk_caps (g : Geodesic) (lat1 lon1 azi1 : ℝ) (caps0 : ℕ) :
    (GeodesicLine.mk' g lat1 lon1 azi1 caps0).caps = lineCaps caps0 := rfl

/-- In the non-error path, `GenPosition` always sets `a12` to an actual
number. -/
theorem genPosition_a12_isSome_of_arcmode (L : GeodesicLine) (v : ℝ) (m : ℕ) :
    (L.GenPosition true v m).a12.isSome := by
  rw [GeodesicLine.GenPosition]
  simp

/-- In distance mode, `GenPosition` sets `a12` to an actual number whenever
the ray's caps include the `DISTANCE_IN` output bit. -/
theorem genPosition_a12_isSome_of_caps (L : GeodesicLine) (v : ℝ) (m : ℕ)
    (h : L.caps &&& GeodesicMask.DISTANCE_IN &&& GeodesicMask.OUT_ALL ≠ 0) :
    (L.GenPosition false v m).a12.isSome := by
  rw [GeodesicLine.GenPosition]
  simp [h]

/-- C4: the capability-mask constants encode exactly the spec's implication
table: the series (CAP) bits contained in each output flag are — LATITUDE:
none; LONGITUDE: C3; AZIMUTH: none; DISTANCE: C1; DISTANCE_IN: C1 and C1p;
REDUCEDLENGTH: C1 and C2; GEODESICSCALE: C1 and C2; AREA: C4 — and no flag
contains any other capability bit. -/
theorem claim_C4_capability_mask_table :
    GeodesicMask.LATITUDE &&& GeodesicMask.CAP_ALL = 0 ∧
    GeodesicMask.LONGITUDE &&& GeodesicMask.CAP_ALL = GeodesicMask.CAP_C3 ∧
    GeodesicMask.AZIMUTH &&& GeodesicMask.CAP_ALL = 0 ∧
    GeodesicMask.DISTANCE &&& GeodesicMask.CAP_ALL = GeodesicMask.CAP_C1 ∧
    GeodesicMask.DISTANCE_IN &&& GeodesicMask.CAP_ALL =
      (GeodesicMask.CAP_C1 ||| GeodesicMask.CAP_C1p) ∧
    GeodesicMask.REDUCEDLENGTH &&& GeodesicMask.CAP_ALL =
      (GeodesicMask.CAP_C1 ||| GeodesicMask.CAP_C2) ∧
    GeodesicMask.GEODESICSCALE &&& GeodesicMask.CAP_ALL =
      (GeodesicMask.CAP_C1 ||| GeodesicMask.CAP_C2) ∧
    GeodesicMask.AREA &&& GeodesicMask.CAP_ALL = GeodesicMask.CAP_C4 := by
  decide

/-- C10: a `GeodesicLine` built with capability argument `0` gets the full
mask `ALL` (all output flags and all series caps), not the empty set, and
therefore answers even distance-mode `GenPosition` queries (its `a12` is a
number, not the NaN error signal). -/
theorem claim_C10_zero_caps_means_all (g : Geodesic) (lat1 lon1 azi1 v : ℝ) (m : ℕ) :
    (GeodesicLine.mk' g lat1 lon1 azi1 0).caps = GeodesicMask.ALL ∧
    GeodesicMask.ALL &&& GeodesicMask.OUT_ALL = GeodesicMask.OUT_ALL ∧
    GeodesicMask.ALL &&& GeodesicMask.CAP_ALL = GeodesicMask.CAP_ALL ∧
    ((GeodesicLine.mk' g lat1 lon1 azi1 0).GenPosition false v m).a12.isSome := by
  refine ⟨rfl, by decide, by decide, ?_⟩
  apply genPosition_a12_isSome_of_caps
  rw [geodesicLine_mk_caps]
  decide

/-- C1: a distance-mode `GenPosition` call on a ray whose caps lack the
`DISTANCE_IN` output bit returns the record with `a12` not-a-number
(embedded as `none`) and all of `lat2, lon2, azi2, s12, m12, M12, M21` at
the default `0`; no exception is involved (the function is total), and the
same ray still answers arc-mode queries (`a12` is a number there). -/
theorem claim_C1_distance_in_unavailable (L : GeodesicLine) (v w : ℝ) (m m' : ℕ)
    (h : L.caps &&& GeodesicMask.DISTANCE_IN &&& GeodesicMask.OUT_ALL = 0) :
    L.GenPosition false v m =
      { a12 := none, s12 := 0, lon2 := 0, lat2 := 0, azi2 := 0,
        m12 := 0, M12 := 0, M21 := 0, S12 := 0 } ∧
    (L.GenPosition true w m').a12.isSome := by
  refine ⟨?_, genPosition_a12_isSome_of_arcmode L w m'⟩
  rw [GeodesicLine.GenPosition]
  simp [h]

/-- Witness for C1 at a concrete ray with caps `LATITUDE | AZIMUTH`. -/
theorem claim_C1_witness :
    sampleLineLatAz.caps &&& GeodesicMask.DISTANCE_IN &&& GeodesicMask.OUT_ALL = 0 ∧
    (sampleLineLatAz.GenPosition false 1000 GeodesicMask.DISTANCE =
      { a12 := none, s12 := 0, lon2 := 0, lat2 := 0, azi2 := 0,
        m12 := 0, M12 := 0, M21 := 0, S12 := 0 } ∧
     (sampleLineLatAz.GenPosition true 90 GeodesicMask.LATITUDE).a12.isSome) :=
  ⟨by decide, claim_C1_distance_in_unavailable sampleLineLatAz 1000 90
      GeodesicMask.DISTANCE GeodesicMask.LATITUDE (by decide)⟩

/-- C7: with an output mask containing only the DISTANCE flag, `GenInverse`
leaves `azi1` and `azi2` at the default `0`, and `GenPosition` (on any ray,
in either mode) leaves `lat2`, `lon2` and `azi2` at the default `0`: only
mask-selected fields are populated.  (A `GenPosition` result has no `azi1`
field at all; `azi1` refers to the inverse result.) -/
theorem claim_C7_distance_only_mask_discipline (g : Geodesic)
    (lat1 lon1 lat2 lon2 : ℝ) (L : GeodesicLine) (arc : Bool) (v : ℝ) :
    ((g.GenInverse lat1 lon1 lat2 lon2 GeodesicMask.DISTANCE).azi1 = 0 ∧
     (g.GenInverse lat1 lon1 lat2 lon2 GeodesicMask.DISTANCE).azi2 = 0) ∧
    ((L.GenPosition arc v GeodesicMask.DISTANCE).lat2 = 0 ∧
     (L.GenPosition arc v GeodesicMask.DISTANCE).lon2 = 0 ∧
     (L.GenPosition arc v GeodesicMask.DISTANCE).azi2 = 0) := by
  constructor
  · exact ⟨rfl, rfl⟩
  · rw [GeodesicLine.GenPosition]
    have hlat : GeodesicMask.DISTANCE &&& (L.caps &&& GeodesicMask.OUT_ALL) &&&
        GeodesicMask.LATITUDE = 0 :=
      and_and_eq_zero_left _ (by decide)
    have hlon : GeodesicMask.DISTANCE &&& (L.caps &&& GeodesicMask.OUT_ALL) &&&
        GeodesicMask.LONGITUDE = 0 :=
      and_and_eq_zero_left _ (by decide)
    have hazi : GeodesicMask.DISTANCE &&& (L.caps &&& GeodesicMask.OUT_ALL) &&&
        GeodesicMask.AZIMUTH = 0 :=
      and_and_eq_zero_left _ (by decide)
    split
    · exact ⟨rfl, rfl, rfl⟩
    · simp [hlat, hlon, hazi]

/-- One loop iteration either leaves `numit` alone (the exit path) or
increments it by one (a Newton or bisection step). -/
theorem invStep_numit (g : Geodesic) (sbet1 cbet1 dn1 sbet2 cbet2 dn2 lam12 : ℝ)
    (st : LoopState) :
    (invStep g sbet1 cbet1 dn1 sbet2 cbet2 dn2 lam12 st).1.numit = st.numit ∨
    (invStep g sbet1 cbet1 dn1 sbet2 cbet2 dn2 lam12 st).1.numit = st.numit + 1 := by
  simp only [invStep]
  repeat' split
  all_goals simp

/-- C3: the inverse solver's refinement loop runs on the fixed budget
`maxit2 = maxit1 + digits + 10 = 20 + 53 + 10 = 83`: the iteration counter
never exceeds the initial count plus the supplied fuel (so at most `maxit2`
iterations from `numit = 0`); the Newton-step guard is off from iteration
`maxit1 = 20` onwards; and on a spent budget the loop just returns its best
state — it is a total function, never an error. -/
theorem claim_C3_iteration_budget :
    Accuracy.maxit2 = 83 ∧ Accuracy.maxit1 = 20 ∧
    Accuracy.maxit2 = Accuracy.maxit1 + GeoMath.digits + 10 ∧
    (∀ g sbet1 cbet1 dn1 sbet2 cbet2 dn2 lam12 fuel st,
      (invLoop g sbet1 cbet1 dn1 sbet2 cbet2 dn2 lam12 fuel st).numit ≤
        st.numit + fuel) ∧
    (∀ st v dv, Accuracy.maxit1 ≤ st.numit → ¬ invStepNewton st v dv) ∧
    (∀ g sbet1 cbet1 dn1 sbet2 cbet2 dn2 lam12 st,
      invLoop g sbet1 cbet1 dn1 sbet2 cbet2 dn2 lam12 0 st = st) := by
  refine ⟨rfl, rfl, rfl, ?_, ?_, fun _ _ _ _ _ _ _ _ _ => rfl⟩
  · intro g sbet1 cbet1 dn1 sbet2 cbet2 dn2 lam12 fuel
    induction fuel with
    | zero => intro st; simp [invLoop]
    | succ n ih =>
      intro st
      rw [invLoop]
      rcases invStep_numit g sbet1 cbet1 dn1 sbet2 cbet2 dn2 lam12 st with h | h
      · split
        · omega
        · have := ih (invStep g sbet1 cbet1 dn1 sbet2 cbet2 dn2 lam12 st).1
          omega
      · split
        · omega
        · have := ih (invStep g sbet1 cbet1 dn1 sbet2 cbet2 dn2 lam12 st).1
          omega
  · intro st v dv h hN
    exact absurd hN.1 (by omega)

/-- Witness for C3: at `numit = maxit1` the Newton guard refuses. -/
theorem claim_C3_witness : ¬ invStepNewton sampleLoopState 0 1 :=
  claim_C3_iteration_budget.2.2.2.2.1 sampleLoopState 0 1 (le_refl _)

/-- Counterexample to C8 as stated: `angNormalize 540 = 180`, which is not
in the half-open interval `[-180, 180)`. -/
theorem claim_C8_counterexample : ¬ (GeoMath.angNormalize 540 < 180) := by
  unfold GeoMath.angNormalize
  norm_num

/-- C8 (amended): `angNormalize` maps to `[-180, 180)` congruent modulo 360
only on the restricted input range `[-540, 540)` (the source comments
"restricted input range"); it folds a single `±360`. -/
theorem claim_C8_angNormalize_range (x : ℝ) (h1 : -540 ≤ x) (h2 : x < 540) :
    (-180 ≤ GeoMath.angNormalize x ∧ GeoMath.angNormalize x < 180) ∧
    (GeoMath.angNormalize x = x - 360 ∨ GeoMath.angNormalize x = x ∨
      GeoMath.angNormalize x = x + 360) := by
  unfold GeoMath.angNormalize
  split_ifs with ha hb
  · constructor
    · constructor <;> linarith
    · left; rfl
  · constructor
    · constructor <;> linarith
    · right; right; rfl
  · constructor
    · constructor <;> linarith
    · right; left; rfl

/-- Witness for C8 at `x = 200`. -/
theorem claim_C8_witness :
    ((-180 ≤ GeoMath.angNormalize 200 ∧ GeoMath.angNormalize 200 < 180) ∧
     (GeoMath.angNormalize 200 = 200 - 360 ∨ GeoMath.angNormalize 200 = 200 ∨
       GeoMath.angNormalize 200 = 200 + 360)) :=
  claim_C8_angNormalize_range 200 (by norm_num) (by norm_num)

/-- Counterexample to C6 as stated: on the unit sphere (`f = 0`), the
equatorial pair `(0,0)`, `(0,-90)` satisfies the claim's hypotheses
(`lam12 = π/2 ≤ π - f·π`), but the closed-form equatorial branch returns
`azi1 = -90` (westward), not the claimed `90`. -/
theorem claim_C6_counterexample :
    ((Geodesic.mk' 1 0).GenInverse 0 0 0 (-90)
        (GeodesicMask.DISTANCE ||| GeodesicMask.AZIMUTH)).azi1 = -90 ∧
    ¬ ((Geodesic.mk' 1 0).GenInverse 0 0 0 (-90)
        (GeodesicMask.DISTANCE ||| GeodesicMask.AZIMUTH)).azi1 = 90 := by
  have hd : GeoMath.angDiff (GeoMath.angNormalize 0) (GeoMath.angNormalize (-90)) = -90 := by
    norm_num [GeoMath.angNormalize, angDiff_eval]
  have h := (genInverse_equatorial_fields 1 0 0 (-90)
      (GeodesicMask.DISTANCE ||| GeodesicMask.AZIMUTH) (by norm_num)
      (by rw [hd]; norm_num) (by rw [hd]; norm_num) (by rw [hd]; norm_num)
      (Or.inl (by norm_num))).2.2.1 (by decide)
  rw [hd] at h
  have h1 : ((Geodesic.mk' 1 0).GenInverse 0 0 0 (-90)
      (GeodesicMask.DISTANCE ||| GeodesicMask.AZIMUTH)).azi1 = -90 := by
    rw [h.1]; norm_num
  exact ⟨h1, by rw [h1]; norm_num⟩

/-- C6 (amended): for every ellipsoid with `f ≤ 1` and every pair of
equatorial points whose normalized longitude difference `d` is nonzero,
strictly inside `(-180, 180)` (excluding the meridian-handled `0`/`±180`
cases) and within the admissible range (`f ≤ 0` or
`|d|·degree ≤ π - f·π`), `GenInverse` resolves via the closed-form
equatorial branch: `a12 = |d|/(1-f)`; when DISTANCE is requested,
`s12 = a·(|d|·degree)`; when AZIMUTH is requested,
`azi1 = azi2 = ±90°` with the sign of `d` (eastward `+90`, westward `-90`);
when GEODESICSCALE is requested, `M12 = M21 = cos(|d|·degree/(1-f))`. -/
theorem claim_C6_equatorial_closed_form (a f lon1 lon2 : ℝ) (m : ℕ) (hf : f ≤ 1)
    (hd0 : GeoMath.angDiff (GeoMath.angNormalize lon1) (GeoMath.angNormalize lon2) ≠ 0)
    (hdl : -180 < GeoMath.angDiff (GeoMath.angNormalize lon1) (GeoMath.angNormalize lon2))
    (hdu : GeoMath.angDiff (GeoMath.angNormalize lon1) (GeoMath.angNormalize lon2) < 180)
    (heq : f ≤ 0 ∨ |GeoMath.angDiff (GeoMath.angNormalize lon1) (GeoMath.angNormalize lon2)| *
        GeoMath.degree ≤ Real.pi - f * Real.pi) :
    ((Geodesic.mk' a f).GenInverse 0 lon1 0 lon2 m).a12 =
      |GeoMath.angDiff (GeoMath.angNormalize lon1) (GeoMath.angNormalize lon2)| / (1 - f) ∧
    (m &&& GeodesicMask.OUT_ALL &&& GeodesicMask.DISTANCE ≠ 0 →
      ((Geodesic.mk' a f).GenInverse 0 lon1 0 lon2 m).s12 =
        a * (|GeoMath.angDiff (GeoMath.angNormalize lon1) (GeoMath.angNormalize lon2)| *
          GeoMath.degree)) ∧
    (m &&& GeodesicMask.OUT_ALL &&& GeodesicMask.AZIMUTH ≠ 0 →
      ((Geodesic.mk' a f).GenInverse 0 lon1 0 lon2 m).azi1 =
        (if 0 < GeoMath.angDiff (GeoMath.angNormalize lon1) (GeoMath.angNormalize lon2)
          then (90 : ℝ) else -90) ∧
      ((Geodesic.mk' a f).GenInverse 0 lon1 0 lon2 m).azi2 =
        (if 0 < GeoMath.angDiff (GeoMath.angNormalize lon1) (GeoMath.angNormalize lon2)
          then (90 : ℝ) else -90)) ∧
    (m &&& GeodesicMask.OUT_ALL &&& GeodesicMask.GEODESICSCALE ≠ 0 →
      ((Geodesic.mk' a f).GenInverse 0 lon1 0 lon2 m).M12 =
        Real.cos (|GeoMath.angDiff (GeoMath.angNormalize lon1) (GeoMath.angNormalize lon2)| *
          GeoMath.degree / (1 - f)) ∧
      ((Geodesic.mk' a f).GenInverse 0 lon1 0 lon2 m).M21 =
        Real.cos (|GeoMath.angDiff (GeoMath.angNormalize lon1) (GeoMath.angNormalize lon2)| *
          GeoMath.degree / (1 - f))) :=
  genInverse_equatorial_fields a f lon1 lon2 m hf hd0 hdl hdu heq

/-- Witness for C6 at the sphere, `(0,0) → (0,90)`, full output mask. -/
theorem claim_C6_witness :
    ((Geodesic.mk' 1 0).GenInverse 0 0 0 90 GeodesicMask.OUT_ALL).a12 =
      |GeoMath.angDiff (GeoMath.angNormalize 0) (GeoMath.angNormalize 90)| / (1 - 0) := by
  have hd : GeoMath.angDiff (GeoMath.angNormalize 0) (GeoMath.angNormalize 90) = 90 := by
    norm_num [GeoMath.angNormalize, angDiff_eval]
  exact (claim_C6_equatorial_closed_form 1 0 0 90 GeodesicMask.OUT_ALL (by norm_num)
    (by rw [hd]; norm_num) (by rw [hd]; norm_num) (by rw [hd]; norm_num)
    (Or.inl (by norm_num))).1

/-- Counterexample to C5 as stated: at longitude difference `180` the
canonicalization is not antisymmetric (`angDiff` folds `-180` to `+180`, so
`lonsign = 1` for both orders), and the two calls return the *same* nonzero
`S12` instead of negated ones: on the unit sphere the pair `(0,0)`, `(0,180)`
gives `S12 = π - arctan tiny` in both orders. -/
theorem claim_C5_counterexample :
    ((Geodesic.mk' 1 0).GenInverse 0 180 0 0 GeodesicMask.AREA).S12 ≠
      -((Geodesic.mk' 1 0).GenInverse 0 0 0 180 GeodesicMask.AREA).S12 := by
  have hd1 : GeoMath.angDiff (GeoMath.angNormalize 0) (GeoMath.angNormalize 180) = 180 := by
    norm_num [GeoMath.angNormalize, angDiff_eval]
  have hd2 : GeoMath.angDiff (GeoMath.angNormalize 180) (GeoMath.angNormalize 0) = 180 := by
    norm_num [GeoMath.angNormalize, angDiff_eval]
  have h1 : canonInverse 0 0 0 180 =
      { lat1 := 0, lat2 := 0, lon12 := 180, lonsign := 1, latsign := -1, swapp := 1 } := by
    rw [canonInverse_both_zero, hd1]; norm_num
  have h2 : canonInverse 0 180 0 0 =
      { lat1 := 0, lat2 := 0, lon12 := 180, lonsign := 1, latsign := -1, swapp := 1 } := by
    rw [canonInverse_both_zero, hd2]; norm_num
  have hval1 : ((Geodesic.mk' 1 0).GenInverse 0 0 0 180 GeodesicMask.AREA).S12 =
      Real.pi - Real.arctan Accuracy.tiny := by
    simp only [Geodesic.GenInverse, h1]
    rw [genInverseCore_sphere_antipodal]
    ring
  have hval2 : ((Geodesic.mk' 1 0).GenInverse 0 180 0 0 GeodesicMask.AREA).S12 =
      Real.pi - Real.arctan Accuracy.tiny := by
    simp only [Geodesic.GenInverse, h2]
    rw [genInverseCore_sphere_antipodal]
    ring
  rw [hval1, hval2]
  have h := Real.arctan_lt_pi_div_two Accuracy.tiny
  have hπ := Real.pi_pos
  intro hcontra
  have : Real.pi = Real.arctan Accuracy.tiny := by linarith
  linarith

/-- C5 (amended): swapping the two inverse inputs is an exact symmetry of
`GenInverse` away from the degenerate configurations: whenever one point is
strictly more polar than the other (`|lat2| < |lat1|`, so the swap branch
actually runs) and the normalized longitude difference is nonzero and
antisymmetric under the swap (it is not, at `±180`), both calls reduce to
the same canonical core, so `s12`, `m12` and `a12` are preserved, `S12` is
negated, `M12`/`M21` trade places, and — whenever the corresponding sine or
cosine of the solved azimuth is nonzero — each azimuth of the swapped call
is the other azimuth of the direct call shifted by `±180°` (the reverse
direction), the documented quadrant convention. -/
theorem claim_C5_swap_symmetry (g : Geodesic) (lat1 lon1 lat2 lon2 : ℝ) (m : ℕ)
    (hlat : |lat2| < |lat1|)
    (hd0 : GeoMath.angDiff (GeoMath.angNormalize lon1) (GeoMath.angNormalize lon2) ≠ 0)
    (hanti : GeoMath.angDiff (GeoMath.angNormalize lon2) (GeoMath.angNormalize lon1) =
      -GeoMath.angDiff (GeoMath.angNormalize lon1) (GeoMath.angNormalize lon2)) :
    (g.GenInverse lat2 lon2 lat1 lon1 m).s12 = (g.GenInverse lat1 lon1 lat2 lon2 m).s12 ∧
    (g.GenInverse lat2 lon2 lat1 lon1 m).m12 = (g.GenInverse lat1 lon1 lat2 lon2 m).m12 ∧
    (g.GenInverse lat2 lon2 lat1 lon1 m).a12 = (g.GenInverse lat1 lon1 lat2 lon2 m).a12 ∧
    (g.GenInverse lat2 lon2 lat1 lon1 m).S12 = -(g.GenInverse lat1 lon1 lat2 lon2 m).S12 ∧
    (m &&& GeodesicMask.OUT_ALL &&& GeodesicMask.GEODESICSCALE ≠ 0 →
      (g.GenInverse lat2 lon2 lat1 lon1 m).M12 = (g.GenInverse lat1 lon1 lat2 lon2 m).M21 ∧
      (g.GenInverse lat2 lon2 lat1 lon1 m).M21 = (g.GenInverse lat1 lon1 lat2 lon2 m).M12) ∧
    (m &&& GeodesicMask.OUT_ALL &&& GeodesicMask.AZIMUTH ≠ 0 →
      (¬((genInverseCore g (canonInverse lat1 lon1 lat2 lon2).lat1
            (canonInverse lat1 lon1 lat2 lon2).lat2
            (canonInverse lat1 lon1 lat2 lon2).lon12
            (m &&& GeodesicMask.OUT_ALL)).salp2 = 0 ∧
          (genInverseCore g (canonInverse lat1 lon1 lat2 lon2).lat1
            (canonInverse lat1 lon1 lat2 lon2).lat2
            (canonInverse lat1 lon1 lat2 lon2).lon12
            (m &&& GeodesicMask.OUT_ALL)).calp2 = 0) →
        (g.GenInverse lat2 lon2 lat1 lon1 m).azi1 =
            (g.GenInverse lat1 lon1 lat2 lon2 m).azi2 + 180 ∨
        (g.GenInverse lat2 lon2 lat1 lon1 m).azi1 =
            (g.GenInverse lat1 lon1 lat2 lon2 m).azi2 - 180) ∧
      (¬((genInverseCore g (canonInverse lat1 lon1 lat2 lon2).lat1
            (canonInverse lat1 lon1 lat2 lon2).lat2
            (canonInverse lat1 lon1 lat2 lon2).lon12
            (m &&& GeodesicMask.OUT_ALL)).salp1 = 0 ∧
          (genInverseCore g (canonInverse lat1 lon1 lat2 lon2).lat1
            (canonInverse lat1 lon1 lat2 lon2).lat2
            (canonInverse lat1 lon1 lat2 lon2).lon12
            (m &&& GeodesicMask.OUT_ALL)).calp1 = 0) →
        (g.GenInverse lat2 lon2 lat1 lon1 m).azi2 =
            (g.GenInverse lat1 lon1 lat2 lon2 m).azi1 + 180 ∨
        (g.GenInverse lat2 lon2 lat1 lon1 m).azi2 =
            (g.GenInverse lat1 lon1 lat2 lon2 m).azi1 - 180)) := by
  have hns := canonInverse_noswap lat1 lon1 lat2 lon2 hlat
  have hds := canonInverse_doswap lat1 lon1 lat2 lon2 hlat hd0 hanti
  set d := GeoMath.angDiff (GeoMath.angNormalize lon1) (GeoMath.angNormalize lon2) with hdd
  set s : ℝ := if d ≥ 0 then (1 : ℝ) else -1 with hss
  set t : ℝ := if lat1 < 0 then (1 : ℝ) else -1 with htt
  have hsne : s ≠ 0 := by rw [hss]; exact sign_if_ne_zero _
  have htne : t ≠ 0 := by rw [htt]; exact sign_if_ne_zero _
  simp only [Geodesic.GenInverse, hns, hds]
  simp only [eq_true (show (-1 : ℝ) < 0 by norm_num),
    eq_false (show ¬ (1 : ℝ) < 0 by norm_num), if_true, if_false, true_and, false_and]
  set core := genInverseCore g (t * lat1) (t * lat2) (s * d) (m &&& GeodesicMask.OUT_ALL)
    with hcore
  have hy2 : ∀ u : ℝ, u * (1 * s) = 0 → u = 0 := by
    intro u hu
    rcases mul_eq_zero.mp hu with h | h
    · exact h
    · rw [one_mul] at h; exact absurd h hsne
  have hx2 : ∀ u : ℝ, u * (1 * t) = 0 → u = 0 := by
    intro u hu
    rcases mul_eq_zero.mp hu with h | h
    · exact h
    · rw [one_mul] at h; exact absurd h htne
  refine ⟨?_, ?_, ?_⟩
  · ring
  · intro hm
    constructor
    · rw [if_pos hm]
    · rw [if_pos hm]
  · intro hm
    constructor
    · intro hnd
      rw [if_pos hm, if_pos hm]
      have e1 : -(core.salp2 * (-1 * s)) = core.salp2 * (1 * s) := by ring
      have e2 : core.calp2 * (-1 * t) = -(core.calp2 * (1 * t)) := by ring
      rw [e1, e2]
      exact atan2_swap_azi (core.salp2 * (1 * s)) (core.calp2 * (1 * t))
        (fun hh => hnd ⟨hy2 _ hh.1, hx2 _ hh.2⟩)
    · intro hnd
      rw [if_pos hm, if_pos hm]
      have e1 : -(core.salp1 * (-1 * s)) = core.salp1 * (1 * s) := by ring
      have e2 : core.calp1 * (-1 * t) = -(core.calp1 * (1 * t)) := by ring
      rw [e1, e2]
      exact atan2_swap_azi (core.salp1 * (1 * s)) (core.calp1 * (1 * t))
        (fun hh => hnd ⟨hy2 _ hh.1, hx2 _ hh.2⟩)

/-- Witness for the amended C5 at the unit sphere, `(30, 0)` and `(0, 90)`:
the distance is symmetric under swapping the endpoints. -/
theorem claim_C5_witness :
    ((Geodesic.mk' 1 0).GenInverse 0 90 30 0 0).s12 =
      ((Geodesic.mk' 1 0).GenInverse 30 0 0 90 0).s12 :=
  (claim_C5_swap_symmetry (Geodesic.mk' 1 0) 30 0 0 90 0 (by norm_num)
    (by norm_num [GeoMath.angNormalize, angDiff_eval])
    (by norm_num [GeoMath.angNormalize, angDiff_eval])).1

/-- The paired loop of `SinCosSeries` is `2m` single Clenshaw steps. -/
theorem sinCosLoop_eq_iter (ar : ℝ) (c : ℕ → ℝ) :
    ∀ (m k : ℕ) (p : ℝ × ℝ),
      sinCosLoop ar c m k p = clenshawIter ar c (2 * m) k p := by
  intro m
  induction m with
  | zero => intro k p; rfl
  | succ m ih =>
    intro k p
    rw [sinCosLoop]
    have h2 : 2 * (m + 1) = (2 * m) + 1 + 1 := by ring
    rw [h2, clenshawIter, clenshawIter]
    have hk : k - 1 - 1 = k - 2 := by omega
    rw [hk, ih]
    rfl

/-- Running `cnt` further Clenshaw steps from the state that has consumed
the top `m` coefficients consumes the top `m + cnt`. -/
theorem clenshawIter_down (ar : ℝ) (c : ℕ → ℝ) :
    ∀ (cnt t m : ℕ), m + cnt ≤ t + 1 →
      clenshawIter ar c cnt (t + 1 - m) (clenshawDown ar c t m) =
        clenshawDown ar c t (m + cnt) := by
  intro cnt
  induction cnt with
  | zero => intro t m _; rfl
  | succ cnt ih =>
    intro t m h
    rw [clenshawIter]
    have hc : t + 1 - m - 1 = t - m := by omega
    rw [hc]
    have hstep : clenshawStep ar (c (t - m)) (clenshawDown ar c t m) =
        clenshawDown ar c t (m + 1) := rfl
    rw [hstep]
    have hk : t - m = t + 1 - (m + 1) := by omega
    rw [hk, ih t (m + 1) (by omega)]
    congr 1
    omega

/-- Shifting the coefficient array by one shifts the top index. -/
theorem clenshawDown_shift (ar : ℝ) (c : ℕ → ℝ) (t : ℕ) :
    ∀ cnt, cnt ≤ t → clenshawDown ar (fun k => c (k - 1)) t cnt =
      clenshawDown ar c (t - 1) cnt := by
  intro cnt
  induction cnt with
  | zero => intro _; rfl
  | succ cnt ih =>
    intro h
    rw [clenshawDown, clenshawDown, ih (by omega)]
    have : t - cnt - 1 = t - 1 - cnt := by omega
    rw [this]

/-- Clenshaw correctness: for any family `φ` satisfying the three-term
recurrence `φ (j+2) = ar φ (j+1) - φ j`, the state after consuming the top
`cnt` coefficients encodes the weighted sum `Σ c (t-i) φ (t-i)`. -/
theorem clenshawDown_sum (ar : ℝ) (c φ : ℕ → ℝ)
    (hφ : ∀ j : ℕ, φ (j + 2) = ar * φ (j + 1) - φ j) (t : ℕ) :
    ∀ cnt, cnt ≤ t →
      ∑ i in Finset.range cnt, c (t - i) * φ (t - i) =
        (clenshawDown ar c t cnt).1 * φ (t - cnt + 1) -
          (clenshawDown ar c t cnt).2 * φ (t - cnt) := by
  intro cnt
  induction cnt with
  | zero => intro _; simp [clenshawDown]
  | succ cnt ih =>
    intro h
    obtain ⟨d, hd⟩ : ∃ d, t - cnt - 1 = d := ⟨_, rfl⟩
    have h1 : t - cnt = d + 1 := by omega
    have h2 : t - cnt + 1 = d + 2 := by omega
    have h3 : t - (cnt + 1) = d := by omega
    have h4 : t - (cnt + 1) + 1 = d + 1 := by omega
    rw [Finset.sum_range_succ, ih (by omega)]
    simp only [clenshawDown, clenshawStep]
    rw [h2, h1, h3, hφ d]
    ring

/-- Counterexample to C9 as stated: at `θ = π/2`, `n = 1`, constant
coefficients `1`, the sine-mode series evaluates to `0`, not to
`Σ_{i=1..1} cᵢ sin(iθ) = sin(π/2) = 1`: the evaluator sums multiples of the
*doubled* angle. -/
theorem claim_C9_counterexample :
    Geodesic.SinCosSeries true (Real.sin (Real.pi / 2)) (Real.cos (Real.pi / 2))
        (fun _ => 1) 1 ≠ 1 * Real.sin (1 * (Real.pi / 2)) := by
  rw [Geodesic.SinCosSeries]
  simp [Real.sin_pi_div_two, Real.cos_pi_div_two, sinCosLoop]

/-- C9 (amended): with `sinX = sin θ`, `cosX = cos θ` and
`ar = 2(cos²θ - sin²θ) = 2 cos 2θ`, the Clenshaw evaluator returns
`Σ_{i=1..n} cᵢ sin(2iθ)` in sine mode (coefficients `c 1 .. c n`) and
`Σ_{i=1..n} c_{i-1} cos((2i-1)θ)` in cosine mode (coefficients
`c 0 .. c (n-1)`), with `O(n)` multiplications and no direct evaluation of
the angle multiples. -/
theorem claim_C9_sinCosSeries_eval (n : ℕ) (c : ℕ → ℝ) (θ : ℝ) :
    Geodesic.SinCosSeries true (Real.sin θ) (Real.cos θ) c n =
      ∑ i in Finset.range n, c (i + 1) * Real.sin (2 * ((i : ℝ) + 1) * θ) ∧
    Geodesic.SinCosSeries false (Real.sin θ) (Real.cos θ) c n =
      ∑ i in Finset.range n, c i * Real.cos ((2 * (i : ℝ) + 1) * θ) := by
  have har : 2 * (Real.cos θ - Real.sin θ) * (Real.cos θ + Real.sin θ) =
      2 * Real.cos (2 * θ) := by
    rw [Real.cos_two_mul']
    ring
  set A := 2 * Real.cos (2 * θ) with hA
  have hφs : ∀ j : ℕ, Real.sin (2 * ((j : ℝ) + 2) * θ) =
      A * Real.sin (2 * ((j : ℝ) + 1) * θ) - Real.sin (2 * (j : ℝ) * θ) := by
    intro j
    have e1 : 2 * ((j : ℝ) + 2) * θ = 2 * ((j : ℝ) + 1) * θ + 2 * θ := by ring
    have e2 : 2 * (j : ℝ) * θ = 2 * ((j : ℝ) + 1) * θ - 2 * θ := by ring
    rw [e1, e2, Real.sin_add, Real.sin_sub, hA]
    ring
  have hφc : ∀ j : ℕ, Real.cos ((2 * ((j : ℝ) + 2) - 1) * θ) =
      A * Real.cos ((2 * ((j : ℝ) + 1) - 1) * θ) - Real.cos ((2 * (j : ℝ) - 1) * θ) := by
    intro j
    have e1 : (2 * ((j : ℝ) + 2) - 1) * θ = (2 * ((j : ℝ) + 1) - 1) * θ + 2 * θ := by ring
    have e2 : (2 * (j : ℝ) - 1) * θ = (2 * ((j : ℝ) + 1) - 1) * θ - 2 * θ := by ring
    rw [e1, e2, Real.cos_add, Real.cos_sub, hA]
    ring
  have hloop : ∀ (k : ℕ) (p : ℝ × ℝ),
      sinCosLoop (2 * (Real.cos θ - Real.sin θ) * (Real.cos θ + Real.sin θ)) c
          (n / 2) k p = clenshawIter A c (2 * (n / 2)) k p := by
    intro k p
    rw [sinCosLoop_eq_iter, har]
  have hsum : ∀ (e φ : ℕ → ℝ), (∀ j : ℕ, φ (j + 2) = A * φ (j + 1) - φ j) →
      ∑ i in Finset.range n, e (n - i) * φ (n - i) =
        (clenshawDown A e n n).1 * φ 1 - (clenshawDown A e n n).2 * φ 0 := by
    intro e φ hφ
    have := clenshawDown_sum A e φ hφ n n (le_refl n)
    simpa using this
  constructor
  · -- sine mode: the loop state is `clenshawDown A c n n`
    have hdown : sinCosLoop (2 * (Real.cos θ - Real.sin θ) * (Real.cos θ + Real.sin θ)) c
        (n / 2) (if n % 2 = 1 then n + 1 - 1 else n + 1)
        ((if n % 2 = 1 then c (n + 1 - 1) else 0), 0) = clenshawDown A c n n := by
      rcases Nat.mod_two_eq_zero_or_one n with h2 | h2
      · have h2m : 2 * (n / 2) = n := by omega
        have hif : ¬ (n % 2 = 1) := by omega
        rw [if_neg hif, if_neg hif, hloop, h2m]
        have := clenshawIter_down A c n n 0 (by omega)
        simpa [clenshawDown] using this
      · have h2m : 1 + 2 * (n / 2) = n := by omega
        rw [if_pos h2, if_pos h2, Nat.add_sub_cancel, hloop]
        have hstart : ((c n : ℝ), (0 : ℝ)) = clenshawDown A c n 1 := by
          simp [clenshawDown, clenshawStep]
        rw [hstart]
        have := clenshawIter_down A c (2 * (n / 2)) n 1 (by omega)
        rw [Nat.add_sub_cancel] at this
        rw [this, h2m]
    have hre : (∑ i in Finset.range n, c (i + 1) * Real.sin (2 * ((i : ℝ) + 1) * θ)) =
        ∑ i in Finset.range n, c (n - i) * Real.sin (2 * ((n - i : ℕ) : ℝ) * θ) := by
      rw [← Finset.sum_range_reflect
        (fun j => c (j + 1) * Real.sin (2 * ((j : ℝ) + 1) * θ)) n]
      refine Finset.sum_congr rfl ?_
      intro i hi
      have hi' : i < n := Finset.mem_range.mp hi
      have e0 : ((n - 1 - i : ℕ) : ℝ) + 1 = ((n - 1 - i + 1 : ℕ) : ℝ) := by push_cast; ring
      have e1 : n - 1 - i + 1 = n - i := by omega
      rw [e0, e1]
    rw [Geodesic.SinCosSeries]
    simp only [if_true, ite_true, Bool.true_eq]
    rw [hdown, hre, hsum c (fun m => Real.sin (2 * (m : ℝ) * θ)) (by
      intro j
      have := hφs j
      push_cast at this ⊢
      convert this using 3)]
    have e2 : (2 : ℝ) * ((1 : ℕ) : ℝ) * θ = 2 * θ := by push_cast; ring
    have e3 : (2 : ℝ) * ((0 : ℕ) : ℝ) * θ = 0 := by push_cast; ring
    simp only [e2, e3, Real.sin_zero, Real.sin_two_mul]
    ring
  · -- cosine mode: the loop state is `clenshawDown A (c ∘ pred) n n`
    rcases Nat.eq_zero_or_pos n with hn | hn
    · subst hn
      rw [Geodesic.SinCosSeries]
      simp [sinCosLoop]
    have hdown : sinCosLoop (2 * (Real.cos θ - Real.sin θ) * (Real.cos θ + Real.sin θ)) c
        (n / 2) (if n % 2 = 1 then n - 1 else n)
        ((if n % 2 = 1 then c (n - 1) else 0), 0) =
        clenshawDown A (fun k => c (k - 1)) n n := by
      rw [clenshawDown_shift A c n n (le_refl n)]
      rcases Nat.mod_two_eq_zero_or_one n with h2 | h2
      · have h2m : 2 * (n / 2) = n := by omega
        have hif : ¬ (n % 2 = 1) := by omega
        rw [if_neg hif, if_neg hif, hloop, h2m]
        have := clenshawIter_down A c n (n - 1) 0 (by omega)
        rw [show n - 1 + 1 - 0 = n by omega] at this
        simpa [clenshawDown] using this
      · rw [if_pos h2, if_pos h2, hloop]
        have hstart : ((c (n - 1) : ℝ), (0 : ℝ)) = clenshawDown A c (n - 1) 1 := by
          simp [clenshawDown, clenshawStep]
        rw [hstart]
        have := clenshawIter_down A c (2 * (n / 2)) (n - 1) 1 (by omega)
        rw [show n - 1 + 1 - 1 = n - 1 by omega] at this
        rw [this, show 1 + 2 * (n / 2) = n by omega]
    have hreC : (∑ i in Finset.range n, c i * Real.cos ((2 * (i : ℝ) + 1) * θ)) =
        ∑ i in Finset.range n, (fun k => c (k - 1)) (n - i) *
          Real.cos ((2 * ((n - i : ℕ) : ℝ) - 1) * θ) := by
      rw [← Finset.sum_range_reflect (fun j => c j * Real.cos ((2 * (j : ℝ) + 1) * θ)) n]
      refine Finset.sum_congr rfl ?_
      intro i hi
      have hi' : i < n := Finset.mem_range.mp hi
      have e1 : n - 1 - i = n - i - 1 := by omega
      have ecast : ((n - 1 - i : ℕ) : ℝ) = ((n - i : ℕ) : ℝ) - 1 := by
        have h3 : n - 1 - i + 1 = n - i := by omega
        have h4 := congrArg (fun m : ℕ => (m : ℝ)) h3
        push_cast at h4
        linarith
      have e2 : (2 * ((n - 1 - i : ℕ) : ℝ) + 1) * θ = (2 * ((n - i : ℕ) : ℝ) - 1) * θ := by
        rw [ecast]; ring
      calc c (n - 1 - i) * Real.cos ((2 * ((n - 1 - i : ℕ) : ℝ) + 1) * θ)
          = c (n - i - 1) * Real.cos ((2 * ((n - i : ℕ) : ℝ) - 1) * θ) := by rw [← e1, e2]
        _ = (fun k => c (k - 1)) (n - i) * Real.cos ((2 * ((n - i : ℕ) : ℝ) - 1) * θ) := rfl
    rw [Geodesic.SinCosSeries]
    simp only [Bool.false_eq_true, if_false, ite_false, Nat.add_zero]
    rw [hdown, hreC, hsum (fun k => c (k - 1))
      (fun m => Real.cos ((2 * (m : ℝ) - 1) * θ)) (by
        intro j
        have := hφc j
        push_cast at this ⊢
        convert this using 3)]
    have e4 : (2 * ((1 : ℕ) : ℝ) - 1) * θ = θ := by push_cast; ring
    have e5 : (2 * ((0 : ℕ) : ℝ) - 1) * θ = -θ := by push_cast; ring
    simp only [e4, e5, Real.cos_neg]
    ring
